import Mathlib

/-!
# Formal model of the `@xrift/code-security` static analysis engine

This file is a shallow embedding, in Lean 4, of the signal-detection and
risk-scoring engine of the `@xrift/code-security` package:

* `src/utils/helpers.ts` — lexical helpers (average entropy, domain
  extraction, callee-name resolution, allow-lists);
* `src/analyzer.ts` — `analyzeCodeSecurity`, the single AST pass that
  produces a `SecuritySignals` record and a list of `Violation`s;
* `src/scoring.ts` — `calculateSecurityScore` and `getSecurityVerdict`;
* `src/utils/file-context.ts` — `determineFileContext` and
  `adjustViolationSeverity`;
* `src/index.ts` — `CodeSecurityService.validate`, the request/response
  wrapper composing the above.

External JavaScript builtins that the code calls (acorn's parser,
`Math.log2`-based Shannon entropy, the `URL` constructor, and
`Number.prototype.toFixed`) are treated as parameters of the model
(`ExternalPrims`, and the `parse` argument of `validate`): every theorem
below is proved for all instantiations of these primitives.
-/

namespace Xrift

/-- External JavaScript primitives consumed by the engine.  `entropyOf`
stands for `calculateEntropy` in `helpers.ts`, whose body is IEEE-754
arithmetic over `Math.log2`; `hostnameOf s` stands for
`new URL(s).hostname`, with `none` for the case in which the `URL`
constructor throws; `numToFixed2 q` stands for `q.toFixed(2)`. -/
structure ExternalPrims where
  entropyOf : String → ℚ
  hostnameOf : String → Option String
  numToFixed2 : ℚ → String

/-- JavaScript `needle` occurs at the start of `hay` (character-wise). -/
def charsMatchAt : List Char → List Char → Bool
  | [], _ => true
  | _ :: _, [] => false
  | a :: as, b :: bs => a == b && charsMatchAt as bs

/-- JavaScript `hay.includes(needle)` over character lists. -/
def charsContainSub (needle : List Char) : List Char → Bool
  | [] => charsMatchAt needle []
  | c :: rest => charsMatchAt needle (c :: rest) || charsContainSub needle rest

/-- Model of JavaScript `s.includes(sub)`. -/
def strIncludes (s sub : String) : Bool :=
  charsContainSub sub.toList s.toList

/-- `ALLOWED_PACKAGES` from `src/utils/helpers.ts`. -/
def ALLOWED_PACKAGES : List String :=
  ["react", "react-dom", "three", "@react-three/fiber", "@react-three/rapier",
   "@react-three/drei", "@xrift/world-sdk"]

/-- `ALLOWED_DOMAINS` from `src/utils/helpers.ts` (trusted CDNs). -/
def ALLOWED_DOMAINS : List String :=
  ["cdn.jsdelivr.net", "unpkg.com", "esm.sh"]

/-- `ENTROPY_THRESHOLD` (`7.0`), shared by `analyzer.ts`, `scoring.ts`
and `index.ts`. -/
def ENTROPY_THRESHOLD : ℚ := 7

/-- `calculateAverageEntropy` from `src/utils/helpers.ts`: average of the
per-string entropy over the strings of length `> 20`; `0` when no string
qualifies or the input is empty.  The per-string entropy is the external
primitive `P.entropyOf`. -/
def calculateAverageEntropy (P : ExternalPrims) (strings : List String) : ℚ :=
  if strings.length = 0 then 0
  else
    let entropies := (strings.filter (fun s => s.length > 20)).map P.entropyOf
    if entropies.length > 0 then
      entropies.foldl (fun a b => a + b) 0 / entropies.length
    else 0

/-- `extractDomains` from `src/utils/helpers.ts`: map each URL string to
its hostname via the `URL` constructor, silently dropping the strings on
which the constructor throws. -/
def extractDomains (P : ExternalPrims) (urls : List String) : List String :=
  urls.filterMap P.hostnameOf

/-- Severity of a violation (`'critical' | 'warning'`). -/
inductive Severity where
  | critical
  | warning
deriving DecidableEq, Repr

/-- The optional `location` payload of a `Violation`
(`{ line, column, code }`).  `getLocation` in `helpers.ts` copies
`node.loc.start` into `line`/`column` and always uses the fixed snippet
string; the embedded AST does not carry parser positions, so `line` and
`column` are modelled as `0` — no claim below depends on their values,
only on the presence or absence of a location. -/
structure ViolationLocation where
  line : ℕ
  column : ℕ
  code : String
deriving DecidableEq, Repr

/-- `Violation` from `src/types.ts`. -/
structure Violation where
  rule : String
  severity : Severity
  message : String
  location : Option ViolationLocation
deriving DecidableEq, Repr

/-- `SecuritySignals` from `src/types.ts`.  `entropy` is a rational in
the model (the code holds an IEEE-754 double; every use of it in the
engine is a comparison against a threshold). -/
structure SecuritySignals where
  hasEval : Bool
  hasDynamicCodeExecution : Bool
  hasNetworkAPI : Bool
  hasNetworkWithoutPermission : Bool
  hasDynamicURLConstruction : Bool
  hasObfuscatedCode : Bool
  hasGlobalVariableOverride : Bool
  hasStorageAccess : Bool
  hasNavigatorAccess : Bool
  hasDangerousDOMManipulation : Bool
  entropy : ℚ
  suspiciousVariableNames : Bool
  importedPackages : List String
  referencedDomains : List String
  detectedViolations : List Violation
deriving DecidableEq, Repr

/-- `CodePermissions.network` from `src/types.ts`. -/
structure NetworkPermissions where
  allowedDomains : List String
deriving DecidableEq, Repr

/-- `CodePermissions` from `src/types.ts`. -/
structure CodePermissions where
  network : Option NetworkPermissions
deriving DecidableEq, Repr

/-- `FileContext` from `src/types.ts`. -/
structure FileContext where
  filePath : String
  isUserCode : Bool
  isSharedLibrary : Bool
  isBundledDependency : Bool
deriving DecidableEq, Repr

/-- `calculateSecurityScore` from `src/scoring.ts`: eight critical flags
short-circuit to `100`; otherwise additive terms accumulate and the sum
is clamped to `100`. -/
def calculateSecurityScore (signals : SecuritySignals) : ℕ :=
  if signals.hasEval then 100
  else if signals.hasDynamicCodeExecution then 100
  else if signals.hasNetworkWithoutPermission then 100
  else if signals.hasGlobalVariableOverride then 100
  else if signals.hasStorageAccess then 100
  else if signals.hasNavigatorAccess then 100
  else if signals.hasDangerousDOMManipulation then 100
  else if signals.hasObfuscatedCode then 100
  else
    let score : ℕ := 0
    let score := if signals.hasDynamicURLConstruction && signals.hasNetworkAPI then
      score + 40 else score
    let score := if signals.entropy > ENTROPY_THRESHOLD then score + 15 else score
    let score := if signals.suspiciousVariableNames then score + 10 else score
    let unknownPackages := signals.importedPackages.filter
      (fun pkg => !(ALLOWED_PACKAGES.any (fun allowed => pkg.startsWith allowed)))
    let score := score + unknownPackages.length * 20
    let score := score + signals.referencedDomains.length * 25
    min score 100

/-- The three verdicts of `getSecurityVerdict`. -/
inductive Verdict where
  | REJECT
  | REVIEW
  | APPROVE
deriving DecidableEq, Repr

/-- `getSecurityVerdict` from `src/scoring.ts`. -/
def getSecurityVerdict (score : ℤ) : Verdict :=
  if score ≥ 70 then .REJECT
  else if score ≥ 50 then .REVIEW
  else .APPROVE

/-- `determineFileContext` from `src/utils/file-context.ts`.  The file
name is the last `/`-separated segment (`split('/').pop() || filePath`:
the JavaScript fallback also fires when the last segment is the empty
string, which is falsy). -/
def determineFileContext (filePath : String) : FileContext :=
  let popped := ((filePath.splitOn "/").getLast?).getD ""
  let fileName := if popped = "" then filePath else popped
  let isUserCode := strIncludes fileName "__federation_expose_World-"
    && fileName.endsWith ".js"
  let isSharedLibrary := fileName.startsWith "__federation_shared_"
    || strIncludes filePath "__federation_shared_"
  let isBundledDependency := !isUserCode && !isSharedLibrary
    && !(strIncludes fileName "__federation_fn_import")
    && fileName != "remoteEntry.js"
  { filePath := fileName
    isUserCode := isUserCode
    isSharedLibrary := isSharedLibrary
    isBundledDependency := isBundledDependency }

/-- The runtime value of an acorn `Literal` node; only string values are
inspected by the analyzer (`typeof value === 'string'` guards). -/
inductive LitValue where
  | str (s : String)
  | nonString
deriving DecidableEq, Repr

/-- The fragment of the acorn AST inspected by `analyzeCodeSecurity`:
call expressions, assignments, member accesses (with their `computed`
flag, which decides whether the walker descends into the property),
static import declarations (modelled with their source string; the
walker also visits the source string as a `Literal` child), identifiers
and literals.  `tree` stands for any other node kind together with its
children: the walker descends through such nodes without firing a
visitor. -/
inductive Node where
  | callExpr (callee : Node) (args : List Node)
  | assignExpr (left : Node) (right : Node)
  | memberExpr (object : Node) (property : Node) (computed : Bool)
  | importDecl (source : String)
  | ident (name : String)
  | lit (value : LitValue)
  | tree (children : List Node)
deriving Repr

/-- `getCalleeName` from `src/utils/helpers.ts`: the name of an
`Identifier` callee, or the property name of a `MemberExpression` callee
whose property is an `Identifier`. -/
def getCalleeName : Node → Option String
  | .ident name => some name
  | .memberExpr _ property _ =>
      match property with
      | .ident name => some name
      | _ => none
  | _ => none

/-- `getLocation` from `src/utils/helpers.ts`.  With acorn's
`locations: true` every node carries a `loc`, so the function returns a
location whenever it is given a node; the snippet is the fixed string of
the source.  Line and column are not tracked by the embedded AST and are
modelled as `0`. -/
def getLocation (_node : Node) : Option ViolationLocation :=
  some { line := 0, column := 0, code := "(code snippet)" }

/-- `createViolation` from `src/analyzer.ts`. -/
def createViolation (rule : String) (severity : Severity) (message : String)
    (node : Option Node) : Violation :=
  { rule := rule, severity := severity, message := message
    location := match node with
      | some n => getLocation n
      | none => none }

/-- Position of a node relative to its immediate parent, as used by the
two reference-equality checks of the analyzer: `parent.left === node`
for an `AssignmentExpression` parent, and `parent.object === node` for a
`MemberExpression` parent (`ancestors[ancestors.length - 2]` in the
source). -/
structure WalkCtx where
  leftOfAssign : Bool
  objectOfMember : Bool
deriving DecidableEq, Repr

/-- The context of a node that is not the left of an assignment nor the
object of a member expression. -/
def rootCtx : WalkCtx := ⟨false, false⟩

/-- The mutable state of one `analyzeCodeSecurity` call: the signals
accumulator plus the three local arrays `urlStrings`, `stringLiterals`
and `variableNames`. -/
structure AnalyzerState where
  signals : SecuritySignals
  urlStrings : List String
  stringLiterals : List String
  variableNames : List String
deriving Repr

/-- The freshly initialised `SecuritySignals` record
(`src/analyzer.ts`, lines 53–69). -/
def initialSignals : SecuritySignals :=
  { hasEval := false, hasDynamicCodeExecution := false, hasNetworkAPI := false
    hasNetworkWithoutPermission := false, hasDynamicURLConstruction := false
    hasObfuscatedCode := false, hasGlobalVariableOverride := false
    hasStorageAccess := false, hasNavigatorAccess := false
    hasDangerousDOMManipulation := false, entropy := 0
    suspiciousVariableNames := false, importedPackages := []
    referencedDomains := [], detectedViolations := [] }

/-- A hexadecimal digit (`[0-9a-fA-F]`). -/
def isHexDigitChar (c : Char) : Bool :=
  c.isDigit || ('a' ≤ c && c ≤ 'f') || ('A' ≤ c && c ≤ 'F')

/-- The regex `\\x[0-9a-fA-F]{2}` matches at the head of the list. -/
def hexEscHere : List Char → Bool
  | '\\' :: 'x' :: a :: b :: _ => isHexDigitChar a && isHexDigitChar b
  | _ => false

/-- The regex `\\u[0-9a-fA-F]{4}` matches at the head of the list. -/
def uniEscHere : List Char → Bool
  | '\\' :: 'u' :: a :: b :: e :: d :: _ =>
      isHexDigitChar a && isHexDigitChar b && isHexDigitChar e && isHexDigitChar d
  | _ => false

/-- Either escape regex matches somewhere in the list (the analyzer
tests both regexes, unanchored, against the literal's runtime value). -/
def escapeSomewhere : List Char → Bool
  | [] => false
  | c :: rest => hexEscHere (c :: rest) || uniEscHere (c :: rest) || escapeSomewhere rest

/-- A string literal value contains a `\xHH` or `\uHHHH` escape
sequence. -/
def hasHexOrUnicodeEscape (s : String) : Bool :=
  escapeSomewhere s.toList

/-- A character of the class `[a-zA-Z0-9_$]`. -/
def isJsNameChar (c : Char) : Bool :=
  c.isAlphanum || c == '_' || c == '$'

/-- The suspicious-variable-name regex `^[_$][a-zA-Z0-9_$]{4,}$`. -/
def matchesSuspiciousVarPattern (name : String) : Bool :=
  match name.toList with
  | [] => false
  | c :: rest => (c == '_' || c == '$') && rest.length ≥ 4 && rest.all isJsNameChar

/-- `eval` detection (`src/analyzer.ts`, lines 81–89). -/
def evalCheck (node : Node) (calleeName : Option String) (st : AnalyzerState) : AnalyzerState :=
  if calleeName = some "eval" then
    { st with signals := { st.signals with
        hasEval := true
        detectedViolations := st.signals.detectedViolations ++
          [createViolation "no-eval" .critical
            "eval()の使用は禁止されています" (some node)] } }
  else st

/-- String first argument to `setTimeout`/`setInterval`
(`src/analyzer.ts`, lines 92–103). -/
def stringTimeoutCheck (node : Node) (calleeName : Option String) (args : List Node)
    (st : AnalyzerState) : AnalyzerState :=
  if ["setTimeout", "setInterval"].contains (calleeName.getD "") then
    match args.head? with
    | some (.lit (.str _)) =>
      { st with signals := { st.signals with
          hasDynamicCodeExecution := true
          detectedViolations := st.signals.detectedViolations ++
            [createViolation "no-string-timeout" .critical
              (calleeName.getD "" ++ "に文字列を渡すことは禁止されています") (some node)] } }
    | _ => st
  else st

/-- `fetch`/`XMLHttpRequest` detection: network API, literal-URL capture,
else dynamic-URL construction (`src/analyzer.ts`, lines 106–117). -/
def fetchXhrCheck (calleeName : Option String) (args : List Node)
    (st : AnalyzerState) : AnalyzerState :=
  if ["fetch", "XMLHttpRequest"].contains (calleeName.getD "") then
    let st := { st with signals := { st.signals with hasNetworkAPI := true } }
    match args.head? with
    | some (.lit (.str url)) => { st with urlStrings := st.urlStrings ++ [url] }
    | _ => { st with signals := { st.signals with hasDynamicURLConstruction := true } }
  else st

/-- `WebSocket` detection: network API and literal-URL capture; unlike
`fetchXhrCheck` there is no branch for a non-literal first argument
(`src/analyzer.ts`, lines 120–126). -/
def webSocketCheck (calleeName : Option String) (args : List Node)
    (st : AnalyzerState) : AnalyzerState :=
  if calleeName = some "WebSocket" then
    let st := { st with signals := { st.signals with hasNetworkAPI := true } }
    match args.head? with
    | some (.lit (.str url)) => { st with urlStrings := st.urlStrings ++ [url] }
    | _ => st
  else st

/-- `navigator.sendBeacon` detection (`src/analyzer.ts`, lines 129–148). -/
def sendBeaconCheck (node callee : Node) (st : AnalyzerState) : AnalyzerState :=
  match callee with
  | .memberExpr (.ident "navigator") (.ident "sendBeacon") _ =>
    { st with signals := { st.signals with
        hasNetworkAPI := true
        hasNavigatorAccess := true
        detectedViolations := st.signals.detectedViolations ++
          [createViolation "no-navigator-access" .critical
            "navigator.sendBeacon()の使用は禁止されています" (some node)] } }
  | _ => st

/-- `insertAdjacentHTML` detection (`src/analyzer.ts`, lines 151–159). -/
def insertAdjacentHtmlCheck (node : Node) (calleeName : Option String)
    (st : AnalyzerState) : AnalyzerState :=
  if ["insertAdjacentHTML"].contains (calleeName.getD "") then
    { st with signals := { st.signals with
        hasDangerousDOMManipulation := true
        detectedViolations := st.signals.detectedViolations ++
          [createViolation "no-dangerous-dom" .critical
            (calleeName.getD "" ++ "()の使用は禁止されています（XSS攻撃のリスク）")
            (some node)] } }
  else st

/-- `document.createElement('script'|'iframe')` detection
(`src/analyzer.ts`, lines 162–179). -/
def createElementCheck (node callee : Node) (args : List Node)
    (st : AnalyzerState) : AnalyzerState :=
  if getCalleeName callee = some "createElement" then
    match callee with
    | .memberExpr (.ident "document") _ _ =>
      match args.head? with
      | some (.lit (.str tag)) =>
        let tagName := tag.map Char.toLower
        if ["script", "iframe"].contains tagName then
          { st with signals := { st.signals with
              hasDangerousDOMManipulation := true
              detectedViolations := st.signals.detectedViolations ++
                [createViolation "no-dangerous-dom" .critical
                  ("document.createElement(\x27" ++ tagName ++
                    "\x27)の使用は禁止されています") (some node)] } }
        else st
      | _ => st
    | _ => st
  else st

/-- `atob`/`btoa`/`unescape`/`decodeURIComponent` detection
(`src/analyzer.ts`, lines 182–190). -/
def obfuscationCalleeCheck (node : Node) (calleeName : Option String)
    (st : AnalyzerState) : AnalyzerState :=
  if ["atob", "btoa", "unescape", "decodeURIComponent"].contains (calleeName.getD "") then
    { st with signals := { st.signals with
        hasObfuscatedCode := true
        detectedViolations := st.signals.detectedViolations ++
          [createViolation "no-obfuscation" .critical
            ("難読化関数 " ++ calleeName.getD "" ++ "() の使用は禁止されています")
            (some node)] } }
  else st

/-- `String.fromCharCode` detection (`src/analyzer.ts`, lines 193–207). -/
def fromCharCodeCheck (node callee : Node) (st : AnalyzerState) : AnalyzerState :=
  match callee with
  | .memberExpr (.ident "String") (.ident "fromCharCode") _ =>
    { st with signals := { st.signals with
        hasObfuscatedCode := true
        detectedViolations := st.signals.detectedViolations ++
          [createViolation "no-obfuscation" .critical
            "String.fromCharCode()の使用は禁止されています" (some node)] } }
  | _ => st

/-- `addEventListener('storage', ...)` detection
(`src/analyzer.ts`, lines 210–225). -/
def storageEventListenerCheck (node callee : Node) (args : List Node)
    (st : AnalyzerState) : AnalyzerState :=
  match callee with
  | .memberExpr _ (.ident "addEventListener") _ =>
    match args.head? with
    | some (.lit (.str s)) =>
      if s = "storage" then
        { st with signals := { st.signals with
            hasStorageAccess := true
            detectedViolations := st.signals.detectedViolations ++
              [createViolation "no-storage-event" .critical
                "addEventListener(\x27storage\x27, ...)の使用は禁止されています（トークン傍受のリスク）"
                (some node)] } }
      else st
    | _ => st
  | _ => st

/-- The `CallExpression` visitor of `analyzeCodeSecurity`: the sequence
of independent checks of `src/analyzer.ts`, lines 77–226, in source
order. -/
def visitCallExpression (node callee : Node) (args : List Node)
    (st : AnalyzerState) : AnalyzerState :=
  let calleeName := getCalleeName callee
  st |> evalCheck node calleeName
     |> stringTimeoutCheck node calleeName args
     |> fetchXhrCheck calleeName args
     |> webSocketCheck calleeName args
     |> sendBeaconCheck node callee
     |> insertAdjacentHtmlCheck node calleeName
     |> createElementCheck node callee args
     |> obfuscationCalleeCheck node calleeName
     |> fromCharCodeCheck node callee
     |> storageEventListenerCheck node callee args

/-- Assignment to `window.*`/`globalThis.*`/`document.*`/`navigator.*`
(`src/analyzer.ts`, lines 233–250). -/
def globalOverrideCheck (node left : Node) (st : AnalyzerState) : AnalyzerState :=
  match left with
  | .memberExpr (.ident objName) _ _ =>
    if ["window", "globalThis", "document", "navigator"].contains objName then
      let st := { st with signals :=
        { st.signals with hasGlobalVariableOverride := true } }
      let st :=
        if objName = "navigator" then
          { st with signals := { st.signals with hasNavigatorAccess := true } }
        else st
      { st with signals := { st.signals with
          detectedViolations := st.signals.detectedViolations ++
            [createViolation "no-global-override" .critical
              ("グローバルオブジェクト " ++ objName ++ " の改ざんは禁止されています")
              (some node)] } }
    else st
  | _ => st

/-- Assignment to `X.prototype.*` (`src/analyzer.ts`, lines 253–266). -/
def prototypePollutionCheck (node left : Node) (st : AnalyzerState) : AnalyzerState :=
  match left with
  | .memberExpr (.memberExpr _ (.ident "prototype") _) _ _ =>
    { st with signals := { st.signals with
        hasGlobalVariableOverride := true
        detectedViolations := st.signals.detectedViolations ++
          [createViolation "no-prototype-pollution" .critical
            "プロトタイプ汚染は禁止されています" (some node)] } }
  | _ => st

/-- Assignment to `*.onstorage` (`src/analyzer.ts`, lines 269–281). -/
def onstorageAssignCheck (node left : Node) (st : AnalyzerState) : AnalyzerState :=
  match left with
  | .memberExpr _ (.ident "onstorage") _ =>
    { st with signals := { st.signals with
        hasStorageAccess := true
        detectedViolations := st.signals.detectedViolations ++
          [createViolation "no-storage-event" .critical
            "onstorageへの代入は禁止されています（トークン傍受のリスク）" (some node)] } }
  | _ => st

/-- The `AssignmentExpression` visitor of `analyzeCodeSecurity`: the
three independent checks of `src/analyzer.ts`, lines 229–282, in source
order. -/
def visitAssignmentExpression (node left : Node) (st : AnalyzerState) : AnalyzerState :=
  st |> globalOverrideCheck node left
     |> prototypePollutionCheck node left
     |> onstorageAssignCheck node left

/-- The `Identifier` name of a node, `none` otherwise (the
`objectName`/`propertyName` computations of the `MemberExpression`
visitor). -/
def identName : Node → Option String
  | .ident n => some n
  | _ => none

/-- `localStorage`/`sessionStorage` access
(`src/analyzer.ts`, lines 294–302). -/
def storageObjectCheck (node : Node) (objectName : Option String)
    (st : AnalyzerState) : AnalyzerState :=
  if ["localStorage", "sessionStorage"].contains (objectName.getD "") then
    { st with signals := { st.signals with
        hasStorageAccess := true
        detectedViolations := st.signals.detectedViolations ++
          [createViolation "no-storage-access" .critical
            (objectName.getD "" ++ "へのアクセスは禁止されています") (some node)] } }
  else st

/-- `document.cookie` access (`src/analyzer.ts`, lines 305–313). -/
def cookieCheck (node : Node) (objectName propertyName : Option String)
    (st : AnalyzerState) : AnalyzerState :=
  if objectName = some "document" ∧ propertyName = some "cookie" then
    { st with signals := { st.signals with
        hasStorageAccess := true
        detectedViolations := st.signals.detectedViolations ++
          [createViolation "no-cookie-access" .critical
            "Cookieへのアクセスは禁止されています" (some node)] } }
  else st

/-- `indexedDB` access (`src/analyzer.ts`, lines 316–324). -/
def indexedDBCheck (node : Node) (objectName : Option String)
    (st : AnalyzerState) : AnalyzerState :=
  if objectName = some "indexedDB" then
    { st with signals := { st.signals with
        hasStorageAccess := true
        detectedViolations := st.signals.detectedViolations ++
          [createViolation "no-indexeddb-access" .critical
            "IndexedDBへのアクセスは禁止されています" (some node)] } }
  else st

/-- Any `navigator.*` member access (`src/analyzer.ts`, lines 327–335). -/
def navigatorMemberCheck (node : Node) (objectName propertyName : Option String)
    (st : AnalyzerState) : AnalyzerState :=
  if objectName = some "navigator" then
    { st with signals := { st.signals with
        hasNavigatorAccess := true
        detectedViolations := st.signals.detectedViolations ++
          [createViolation "no-navigator-access" .critical
            ("navigator." ++ propertyName.getD "*" ++
              "へのアクセスは禁止されています（フィンガープリンティング防止）")
            (some node)] } }
  else st

/-- `innerHTML`/`outerHTML` as the left side of an assignment: the
source checks that the direct ancestor is an `AssignmentExpression`
whose `left` is this very node (`src/analyzer.ts`, lines 338–350). -/
def innerHtmlAssignCheck (node : Node) (propertyName : Option String) (ctx : WalkCtx)
    (st : AnalyzerState) : AnalyzerState :=
  if ["innerHTML", "outerHTML"].contains (propertyName.getD "") then
    if ctx.leftOfAssign then
      { st with signals := { st.signals with
          hasDangerousDOMManipulation := true
          detectedViolations := st.signals.detectedViolations ++
            [createViolation "no-dangerous-dom" .critical
              (propertyName.getD "" ++ "への代入は禁止されています（XSS攻撃のリスク）")
              (some node)] } }
    else st
  else st

/-- `document.head` access (`src/analyzer.ts`, lines 353–361). -/
def documentHeadCheck (node : Node) (objectName propertyName : Option String)
    (st : AnalyzerState) : AnalyzerState :=
  if objectName = some "document" ∧ propertyName = some "head" then
    { st with signals := { st.signals with
        hasDangerousDOMManipulation := true
        detectedViolations := st.signals.detectedViolations ++
          [createViolation "no-dangerous-dom" .critical
            "document.headへのアクセスは禁止されています（スクリプト注入のリスク）"
            (some node)] } }
  else st

/-- The `MemberExpression` visitor of `analyzeCodeSecurity`: the
sequence of independent checks of `src/analyzer.ts`, lines 285–362, in
source order. -/
def visitMemberExpression (node object property : Node) (ctx : WalkCtx)
    (st : AnalyzerState) : AnalyzerState :=
  let objectName := identName object
  let propertyName := identName property
  st |> storageObjectCheck node objectName
     |> cookieCheck node objectName propertyName
     |> indexedDBCheck node objectName
     |> navigatorMemberCheck node objectName propertyName
     |> innerHtmlAssignCheck node propertyName ctx
     |> documentHeadCheck node objectName propertyName

/-- The `ImportDeclaration` visitor of `analyzeCodeSecurity`
(`src/analyzer.ts`, lines 365–378). -/
def visitImportDeclaration (node : Node) (source : String)
    (st : AnalyzerState) : AnalyzerState :=
  let st := { st with signals := { st.signals with
      importedPackages := st.signals.importedPackages ++ [source] } }
  if source.startsWith "http://" || source.startsWith "https://" then
    { st with signals := { st.signals with
        detectedViolations := st.signals.detectedViolations ++
          [createViolation "no-external-import" .critical
            "外部URLからのimportは禁止されています" (some node)] } }
  else st

/-- The `Identifier` visitor of `analyzeCodeSecurity`
(`src/analyzer.ts`, lines 381–397). -/
def visitIdentifier (node : Node) (name : String) (ctx : WalkCtx)
    (st : AnalyzerState) : AnalyzerState :=
  let st := { st with variableNames := st.variableNames ++ [name] }
  if name = "navigator" then
    if ctx.objectOfMember then st
    else
      { st with signals := { st.signals with
          hasNavigatorAccess := true
          detectedViolations := st.signals.detectedViolations ++
            [createViolation "no-navigator-access" .critical
              "navigatorオブジェクトへのアクセスは禁止されています" (some node)] } }
  else st

/-- The `Literal` visitor of `analyzeCodeSecurity`
(`src/analyzer.ts`, lines 400–416). -/
def visitLiteral (node : Node) (value : LitValue) (st : AnalyzerState) : AnalyzerState :=
  match value with
  | .nonString => st
  | .str v =>
    let st := { st with stringLiterals := st.stringLiterals ++ [v] }
    if hasHexOrUnicodeEscape v then
      { st with signals := { st.signals with
          hasObfuscatedCode := true
          detectedViolations := st.signals.detectedViolations ++
            [createViolation "no-obfuscation" .critical
              "16進数/Unicodeエスケープによる難読化は禁止されています" (some node)] } }
    else st

mutual
/-- The list of `(node, position)` pairs visited by `walk.ancestor`, in
visit order.  acorn-walk runs the base walker over the children before
firing the node's own visitor, so the traversal is post-order; the base
walker descends into a member expression's property only when the access
is `computed`, and visits an import declaration's source literal. -/
def postOrder : Node → WalkCtx → List (Node × WalkCtx)
  | .callExpr callee args, ctx =>
      postOrder callee rootCtx ++ postOrderList args
        ++ [(.callExpr callee args, ctx)]
  | .assignExpr left right, ctx =>
      postOrder left ⟨true, false⟩ ++ postOrder right rootCtx
        ++ [(.assignExpr left right, ctx)]
  | .memberExpr object property computed, ctx =>
      postOrder object ⟨false, true⟩
        ++ (if computed then postOrder property rootCtx else [])
        ++ [(.memberExpr object property computed, ctx)]
  | .importDecl source, ctx =>
      [(.lit (.str source), rootCtx), (.importDecl source, ctx)]
  | .ident name, ctx => [(.ident name, ctx)]
  | .lit value, ctx => [(.lit value, ctx)]
  | .tree children, ctx => postOrderList children ++ [(.tree children, ctx)]

/-- Children of a node are visited in syntactic order, each at the
neutral position. -/
def postOrderList : List Node → List (Node × WalkCtx)
  | [] => []
  | n :: rest => postOrder n rootCtx ++ postOrderList rest
end

/-- Dispatch of the registered visitors on one visited node. -/
def visitOne (st : AnalyzerState) (p : Node × WalkCtx) : AnalyzerState :=
  match p with
  | (.callExpr callee args, _) =>
      visitCallExpression (.callExpr callee args) callee args st
  | (.assignExpr left right, _) =>
      visitAssignmentExpression (.assignExpr left right) left st
  | (.memberExpr object property computed, ctx) =>
      visitMemberExpression (.memberExpr object property computed) object property ctx st
  | (.importDecl source, _) =>
      visitImportDeclaration (.importDecl source) source st
  | (.ident name, ctx) => visitIdentifier (.ident name) name ctx st
  | (.lit value, _) => visitLiteral (.lit value) value st
  | (.tree _, _) => st

/-- Entropy post-pass: store the average entropy of the collected
string literals and raise `no-obfuscation` when it exceeds the
threshold (`src/analyzer.ts`, lines 419–430). -/
def applyEntropy (P : ExternalPrims) (stringLiterals : List String)
    (signals : SecuritySignals) : SecuritySignals :=
  let signals := { signals with
    entropy := calculateAverageEntropy P stringLiterals }
  if signals.entropy > ENTROPY_THRESHOLD then
    { signals with
      hasObfuscatedCode := true
      detectedViolations := signals.detectedViolations ++
        [createViolation "no-obfuscation" .critical
          ("文字列のエントロピーが異常に高い（" ++ P.numToFixed2 signals.entropy ++
            "）- 難読化の疑い") none] }
  else signals

/-- Suspicious-variable-name post-pass (`src/analyzer.ts`,
lines 432–444). -/
def applySuspiciousNames (P : ExternalPrims) (variableNames : List String)
    (signals : SecuritySignals) : SecuritySignals :=
  let suspiciousVars := variableNames.filter
    (fun name => matchesSuspiciousVarPattern name && P.entropyOf name > 7/2)
  if suspiciousVars.length > 0 then
    { signals with
      hasObfuscatedCode := true
      suspiciousVariableNames := true
      detectedViolations := signals.detectedViolations ++
        [createViolation "no-obfuscation" .critical
          ("疑わしい変数名が検出されました: " ++
            String.intercalate ", " (suspiciousVars.take 3) ++ "...") none] }
  else signals

/-- URL post-pass: extract the referenced domains from the captured URL
strings (`src/analyzer.ts`, line 447). -/
def applyDomains (P : ExternalPrims) (urlStrings : List String)
    (signals : SecuritySignals) : SecuritySignals :=
  { signals with referencedDomains := extractDomains P urlStrings }

/-- The caller-supplied allow-list
(`permissions?.network?.allowedDomains || []`). -/
def allowedDomainsOf (permissions : Option CodePermissions) : List String :=
  ((permissions.bind (fun p => p.network)).map (fun n => n.allowedDomains)).getD []

/-- Some referenced domain is outside both the caller's allow-list and
the built-in CDN allow-list (`src/analyzer.ts`, lines 452–454). -/
def hasUnauthorizedDomain (permissions : Option CodePermissions)
    (signals : SecuritySignals) : Bool :=
  signals.referencedDomains.any
    (fun domain => !((allowedDomainsOf permissions).contains domain)
      && !(ALLOWED_DOMAINS.contains domain))

/-- Permission post-pass: when a network API was seen, raise
`no-network-without-permission` (with no source location) if some
referenced domain is outside both the caller's allow-list and the
built-in CDN allow-list, or if a dynamic URL construction was seen
(`src/analyzer.ts`, lines 450–464). -/
def applyPermissionCheck (permissions : Option CodePermissions)
    (signals : SecuritySignals) : SecuritySignals :=
  if signals.hasNetworkAPI then
    if hasUnauthorizedDomain permissions signals || signals.hasDynamicURLConstruction then
      { signals with
        hasNetworkWithoutPermission := true
        detectedViolations := signals.detectedViolations ++
          [createViolation "no-network-without-permission" .critical
            "ネットワーク通信にはxrift.config.tsでの権限宣言が必要です" none] }
    else signals
  else signals

/-- The analyzer state at the start of a call: fresh signals, empty
`urlStrings`/`stringLiterals`/`variableNames`. -/
def initialState : AnalyzerState :=
  { signals := initialSignals, urlStrings := [], stringLiterals := []
    variableNames := [] }

/-- `analyzeCodeSecurity` from `src/analyzer.ts`: the tree walk followed
by the post-pass (entropy, suspicious variable names, domain extraction,
permission check).  The parsing step (`acorn.parse`) is external: the
function takes the parsed tree. -/
def analyzeCodeSecurity (P : ExternalPrims) (ast : Node)
    (permissions : Option CodePermissions) : SecuritySignals :=
  let st := (postOrder ast rootCtx).foldl visitOne initialState
  st.signals
    |> applyEntropy P st.stringLiterals
    |> applySuspiciousNames P st.variableNames
    |> applyDomains P st.urlStrings
    |> applyPermissionCheck permissions

/-- `adjustViolationSeverity` from `src/utils/file-context.ts`. -/
def adjustViolationSeverity (rule : String) (originalSeverity : Severity)
    (context : FileContext) : Severity :=
  if context.isUserCode then originalSeverity
  else
    let fileName := context.filePath
    if strIncludes fileName "__federation_fn_import" then originalSeverity
    else
      let isRemoteEntry := fileName = "remoteEntry.js"
      if context.isSharedLibrary || context.isBundledDependency || isRemoteEntry then
        let technicalViolations :=
          ["no-obfuscation", "no-dangerous-dom", "no-navigator-access",
           "no-prototype-pollution", "no-global-override",
           "no-network-without-permission"]
        if technicalViolations.contains rule then Severity.warning
        else
          let criticalViolations := ["no-eval", "no-storage-access", "no-storage-event"]
          if criticalViolations.contains rule then Severity.critical
          else originalSeverity
      else originalSeverity

/-- `ValidateCodeRequest.manifestConfig` from `src/types.ts`. -/
structure ManifestConfig where
  permissions : Option CodePermissions
deriving DecidableEq, Repr

/-- `ValidateCodeRequest.packageJson` from `src/types.ts`. -/
structure PackageJson where
  dependencies : List (String × String)
deriving DecidableEq, Repr

/-- `ValidateCodeRequest` from `src/types.ts`. -/
structure ValidateCodeRequest where
  code : String
  sourceMap : Option String
  packageJson : PackageJson
  manifestConfig : Option ManifestConfig
  fileContext : Option FileContext
deriving DecidableEq, Repr

/-- The `violations` payload of `ValidateCodeResponse`. -/
structure ViolationBuckets where
  critical : List Violation
  warnings : List Violation
deriving DecidableEq, Repr

/-- The `analysis` payload of `ValidateCodeResponse`. -/
structure AnalysisReport where
  entropy : ℚ
  suspiciousPatterns : List String
  detectedAPIs : List String
  externalDependencies : List String
deriving DecidableEq, Repr

/-- `ValidateCodeResponse` from `src/types.ts`. -/
structure ValidateCodeResponse where
  valid : Bool
  securityScore : ℕ
  violations : ViolationBuckets
  analysis : AnalysisReport
deriving DecidableEq, Repr

/-- `CodeSecurityService.validate` from `src/index.ts`.  `parse` is the
external acorn parser (the source hands `request.code` both to the
parser and, when no explicit file context is supplied, to
`determineFileContext`). -/
def CodeSecurityService.validate (parse : String → Node) (P : ExternalPrims)
    (request : ValidateCodeRequest) : ValidateCodeResponse :=
  let fileContext := request.fileContext.getD (determineFileContext request.code)
  let signals := analyzeCodeSecurity P (parse request.code)
    (request.manifestConfig.bind (fun m => m.permissions))
  let adjustedViolations := signals.detectedViolations.map (fun violation =>
    { violation with
        severity := adjustViolationSeverity violation.rule violation.severity fileContext })
  let securityScore := calculateSecurityScore signals
  let critical := adjustedViolations.filter (fun v => v.severity == Severity.critical)
  let warnings := adjustedViolations.filter (fun v => !(v.severity == Severity.critical))
  let detectedAPIs : List String :=
    (if signals.hasEval then ["eval"] else [])
    ++ (if signals.hasDynamicCodeExecution then ["setTimeout/setInterval(string)"] else [])
    ++ (if signals.hasNetworkAPI then ["fetch/WebSocket/XMLHttpRequest"] else [])
    ++ (if signals.hasStorageAccess then ["localStorage/sessionStorage/indexedDB/cookie"] else [])
    ++ (if signals.hasNavigatorAccess then ["navigator"] else [])
    ++ (if signals.hasDangerousDOMManipulation then ["innerHTML/outerHTML/createElement"] else [])
    ++ (if signals.hasObfuscatedCode then ["obfuscation (atob/btoa/fromCharCode)"] else [])
  let suspiciousPatterns : List String :=
    (if signals.hasDynamicURLConstruction then ["動的URL構築"] else [])
    ++ (if signals.hasGlobalVariableOverride then ["グローバル変数改ざん"] else [])
    ++ (if signals.entropy > ENTROPY_THRESHOLD then
          ["高エントロピー文字列 (" ++ P.numToFixed2 signals.entropy ++ ")"] else [])
    ++ (if signals.suspiciousVariableNames then ["疑わしい変数名"] else [])
  let externalDependencies := signals.importedPackages.filter
    (fun pkg => pkg.startsWith "http://" || pkg.startsWith "https://")
  let valid := critical.length == 0
  { valid := valid
    securityScore := securityScore
    violations := { critical := critical, warnings := warnings }
    analysis := { entropy := signals.entropy
                  suspiciousPatterns := suspiciousPatterns
                  detectedAPIs := detectedAPIs
                  externalDependencies := externalDependencies } }

/-- The additive branch of `calculateSecurityScore`: the accumulation of
`src/scoring.ts`, lines 25–45, before the final clamp to `100`. -/
def additiveScore (signals : SecuritySignals) : ℕ :=
  let score : ℕ := 0
  let score := if signals.hasDynamicURLConstruction && signals.hasNetworkAPI then
    score + 40 else score
  let score := if signals.entropy > ENTROPY_THRESHOLD then score + 15 else score
  let score := if signals.suspiciousVariableNames then score + 10 else score
  let unknownPackages := signals.importedPackages.filter
    (fun pkg => !(ALLOWED_PACKAGES.any (fun allowed => pkg.startsWith allowed)))
  let score := score + unknownPackages.length * 20
  score + signals.referencedDomains.length * 25

/-- One of the eight flags on which `calculateSecurityScore`
short-circuits to `100` is set. -/
def anyCriticalFlag (s : SecuritySignals) : Bool :=
  s.hasEval || s.hasDynamicCodeExecution || s.hasNetworkWithoutPermission ||
  s.hasGlobalVariableOverride || s.hasStorageAccess || s.hasNavigatorAccess ||
  s.hasDangerousDOMManipulation || s.hasObfuscatedCode

/-- A trivial instantiation of the external primitives, used to evaluate
the model on concrete inputs whose behavior does not depend on them. -/
def constPrims : ExternalPrims :=
  { entropyOf := fun _ => 0, hostnameOf := fun _ => none
    numToFixed2 := fun _ => "" }

/-- The left side of the assignment has the shape `X.prototype.y`
(`left.object` is a member expression whose property is the identifier
`prototype`), the trigger of `prototypePollutionCheck`. -/
def isPrototypeAssignTarget : Node → Bool
  | .memberExpr (.memberExpr _ (.ident "prototype") _) _ _ => true
  | _ => false

/-- The walker visits an assignment to `X.prototype.y` somewhere in the
tree. -/
def containsPrototypeAssignment (ast : Node) : Bool :=
  (postOrder ast rootCtx).any (fun p =>
    match p.1 with
    | .assignExpr left _ => isPrototypeAssignTarget left
    | _ => false)

/-- A `true` flag is backed by a violation whose rule is among `rules`. -/
def Backed (vs : List Violation) (flag : Bool) (rules : List String) : Prop :=
  flag = true → ∃ v ∈ vs, v.rule ∈ rules

/-- The evolution relation that every visitor step of the tree walk
satisfies: violations are only appended, the appended violations never
use the rule reserved for the permission post-pass,
`hasNetworkWithoutPermission` is never touched, and every flag is either
left unchanged or set to `true` together with a backing violation. -/
def FlagEvolves (a b : SecuritySignals) (f : SecuritySignals → Bool)
    (rules : List String) : Prop :=
  f b = f a ∨ (f b = true ∧ ∃ v ∈ b.detectedViolations, v.rule ∈ rules)

/-- See `FlagEvolves`: the conjunction over all tracked flags, plus the
append-only and permission-rule-free shape of the violation list. -/
def Evolves (a b : SecuritySignals) : Prop :=
  (∃ tail, b.detectedViolations = a.detectedViolations ++ tail
     ∧ ∀ v ∈ tail, v.rule ≠ "no-network-without-permission")
  ∧ b.hasNetworkWithoutPermission = a.hasNetworkWithoutPermission
  ∧ FlagEvolves a b (fun s => s.hasEval) ["no-eval"]
  ∧ FlagEvolves a b (fun s => s.hasDynamicCodeExecution) ["no-string-timeout"]
  ∧ FlagEvolves a b (fun s => s.hasObfuscatedCode) ["no-obfuscation"]
  ∧ FlagEvolves a b (fun s => s.hasGlobalVariableOverride)
      ["no-global-override", "no-prototype-pollution"]
  ∧ FlagEvolves a b (fun s => s.hasStorageAccess)
      ["no-storage-access", "no-cookie-access", "no-indexeddb-access", "no-storage-event"]
  ∧ FlagEvolves a b (fun s => s.hasNavigatorAccess)
      ["no-navigator-access", "no-global-override"]
  ∧ FlagEvolves a b (fun s => s.hasDangerousDOMManipulation) ["no-dangerous-dom"]

/-! ## Scoring: normal form, bounds and monotonicity -/

theorem calculateSecurityScore_eq (s : SecuritySignals) :
    calculateSecurityScore s =
      if anyCriticalFlag s then 100 else min (additiveScore s) 100 := by
  obtain ⟨hE, hDC, hNA, hNWP, hDU, hOb, hGO, hSA, hNav, hDD, en, sv, ip, rd, dv⟩ := s
  cases hE <;> cases hDC <;> cases hNWP <;> cases hGO <;> cases hSA <;>
    cases hNav <;> cases hDD <;> cases hOb <;> rfl

theorem calculateSecurityScore_le_100 (s : SecuritySignals) :
    calculateSecurityScore s ≤ 100 := by
  rw [calculateSecurityScore_eq]
  split
  · exact le_rfl
  · exact min_le_right _ _

theorem calculateSecurityScore_of_flag (s : SecuritySignals)
    (h : anyCriticalFlag s = true) : calculateSecurityScore s = 100 := by
  rw [calculateSecurityScore_eq, if_pos h]

/-- **C2.** For every `SecuritySignals` record in which at least one of
the eight flags `hasEval`, `hasDynamicCodeExecution`,
`hasNetworkWithoutPermission`, `hasGlobalVariableOverride`,
`hasStorageAccess`, `hasNavigatorAccess`, `hasDangerousDOMManipulation`,
`hasObfuscatedCode` is true, `calculateSecurityScore` returns exactly
`100`, regardless of every other field of the record. -/
theorem criticalFlag_scores_100 (s : SecuritySignals)
    (h : s.hasEval = true ∨ s.hasDynamicCodeExecution = true ∨
         s.hasNetworkWithoutPermission = true ∨ s.hasGlobalVariableOverride = true ∨
         s.hasStorageAccess = true ∨ s.hasNavigatorAccess = true ∨
         s.hasDangerousDOMManipulation = true ∨ s.hasObfuscatedCode = true) :
    calculateSecurityScore s = 100 := by
  apply calculateSecurityScore_of_flag
  unfold anyCriticalFlag
  rcases h with h | h | h | h | h | h | h | h <;> simp [h]

/-- Witness for C2 at a record with only `hasStorageAccess` set. -/
theorem criticalFlag_scores_100_witness :
    ({ initialSignals with hasStorageAccess := true } : SecuritySignals).hasStorageAccess = true
    ∧ calculateSecurityScore { initialSignals with hasStorageAccess := true } = 100 :=
  ⟨rfl, criticalFlag_scores_100 _ (Or.inr (Or.inr (Or.inr (Or.inr (Or.inl rfl)))))⟩

/-- **C3.** `getSecurityVerdict` returns `REJECT` for `score ≥ 70`,
`REVIEW` for `50 ≤ score < 70` and `APPROVE` for `score < 50`; in
particular the boundary values `50 ↦ REVIEW`, `49 ↦ APPROVE`,
`70 ↦ REJECT`, `69 ↦ REVIEW`. -/
theorem getSecurityVerdict_spec (score : ℤ) :
    (score ≥ 70 → getSecurityVerdict score = .REJECT)
    ∧ (50 ≤ score ∧ score < 70 → getSecurityVerdict score = .REVIEW)
    ∧ (score < 50 → getSecurityVerdict score = .APPROVE)
    ∧ getSecurityVerdict 50 = .REVIEW ∧ getSecurityVerdict 49 = .APPROVE
    ∧ getSecurityVerdict 70 = .REJECT ∧ getSecurityVerdict 69 = .REVIEW := by
  refine ⟨fun h => ?_, fun h => ?_, fun h => ?_, by decide, by decide, by decide, by decide⟩ <;>
    (unfold getSecurityVerdict; split_ifs <;> first | rfl | (exfalso; omega))

/-- Witness for C3 at the boundary scores. -/
theorem getSecurityVerdict_spec_witness :
    getSecurityVerdict 70 = .REJECT ∧ getSecurityVerdict 69 = .REVIEW
    ∧ getSecurityVerdict 49 = .APPROVE :=
  ⟨(getSecurityVerdict_spec 70).1 (by decide),
   (getSecurityVerdict_spec 69).2.1 (by decide),
   (getSecurityVerdict_spec 49).2.2.1 (by decide)⟩

/-- **C4.** `calculateSecurityScore` is bounded to `[0, 100]`, and
flipping any single risk signal from absent to present — setting any
boolean flag to true, raising the entropy, or appending an imported
package or a referenced domain — never decreases it. -/
theorem score_monotone_bounded (s : SecuritySignals) :
    (0 ≤ calculateSecurityScore s ∧ calculateSecurityScore s ≤ 100)
    ∧ calculateSecurityScore s ≤ calculateSecurityScore { s with hasEval := true }
    ∧ calculateSecurityScore s ≤ calculateSecurityScore { s with hasDynamicCodeExecution := true }
    ∧ calculateSecurityScore s ≤ calculateSecurityScore { s with hasNetworkAPI := true }
    ∧ calculateSecurityScore s ≤ calculateSecurityScore { s with hasNetworkWithoutPermission := true }
    ∧ calculateSecurityScore s ≤ calculateSecurityScore { s with hasDynamicURLConstruction := true }
    ∧ calculateSecurityScore s ≤ calculateSecurityScore { s with hasObfuscatedCode := true }
    ∧ calculateSecurityScore s ≤ calculateSecurityScore { s with hasGlobalVariableOverride := true }
    ∧ calculateSecurityScore s ≤ calculateSecurityScore { s with hasStorageAccess := true }
    ∧ calculateSecurityScore s ≤ calculateSecurityScore { s with hasNavigatorAccess := true }
    ∧ calculateSecurityScore s ≤ calculateSecurityScore { s with hasDangerousDOMManipulation := true }
    ∧ calculateSecurityScore s ≤ calculateSecurityScore { s with suspiciousVariableNames := true }
    ∧ (∀ e, s.entropy ≤ e →
        calculateSecurityScore s ≤ calculateSecurityScore { s with entropy := e })
    ∧ (∀ pkg, calculateSecurityScore s ≤
        calculateSecurityScore { s with importedPackages := s.importedPackages ++ [pkg] })
    ∧ (∀ d, calculateSecurityScore s ≤
        calculateSecurityScore { s with referencedDomains := s.referencedDomains ++ [d] }) := by
  have hcrit : ∀ t : SecuritySignals, anyCriticalFlag t = true →
      calculateSecurityScore s ≤ calculateSecurityScore t := by
    intro t ht
    rw [calculateSecurityScore_of_flag t ht]
    exact calculateSecurityScore_le_100 s
  have hle : ∀ t : SecuritySignals, anyCriticalFlag t = anyCriticalFlag s →
      additiveScore s ≤ additiveScore t →
      calculateSecurityScore s ≤ calculateSecurityScore t := by
    intro t h1 h2
    rw [calculateSecurityScore_eq, calculateSecurityScore_eq, h1]
    cases hc : anyCriticalFlag s
    · simp only [hc, Bool.false_eq_true, if_false]
      exact min_le_min h2 le_rfl
    · simp [hc]
  refine ⟨⟨Nat.zero_le _, calculateSecurityScore_le_100 s⟩,
    hcrit _ (by simp [anyCriticalFlag]), hcrit _ (by simp [anyCriticalFlag]),
    hle _ rfl ?addNA, hcrit _ (by simp [anyCriticalFlag]),
    hle _ rfl ?addDU, hcrit _ (by simp [anyCriticalFlag]),
    hcrit _ (by simp [anyCriticalFlag]), hcrit _ (by simp [anyCriticalFlag]),
    hcrit _ (by simp [anyCriticalFlag]), hcrit _ (by simp [anyCriticalFlag]),
    hle _ rfl ?addSV, fun e he => hle _ rfl ?addEN,
    fun pkg => hle _ rfl ?addPK, fun d => hle _ rfl ?addDM⟩
  case addNA =>
    unfold additiveScore
    by_cases hen : s.entropy > ENTROPY_THRESHOLD <;>
      cases hdu : s.hasDynamicURLConstruction <;> cases hna : s.hasNetworkAPI <;>
        cases hsv : s.suspiciousVariableNames <;> simp [hen, hdu, hna, hsv]
  case addDU =>
    unfold additiveScore
    by_cases hen : s.entropy > ENTROPY_THRESHOLD <;>
      cases hdu : s.hasDynamicURLConstruction <;> cases hna : s.hasNetworkAPI <;>
        cases hsv : s.suspiciousVariableNames <;> simp [hen, hdu, hna, hsv]
  case addSV =>
    unfold additiveScore
    by_cases hen : s.entropy > ENTROPY_THRESHOLD <;>
      cases hdu : s.hasDynamicURLConstruction <;> cases hna : s.hasNetworkAPI <;>
        cases hsv : s.suspiciousVariableNames <;> simp [hen, hdu, hna, hsv]
  case addEN =>
    unfold additiveScore
    rcases lt_or_le ENTROPY_THRESHOLD s.entropy with hen | hen
    · have hen2 : ENTROPY_THRESHOLD < e := lt_of_lt_of_le hen he
      cases hdu : s.hasDynamicURLConstruction <;> cases hna : s.hasNetworkAPI <;>
        cases hsv : s.suspiciousVariableNames <;> simp [hen, hen2, hdu, hna, hsv]
    · have hen1 : ¬ s.entropy > ENTROPY_THRESHOLD := not_lt.mpr hen
      by_cases hen2 : e > ENTROPY_THRESHOLD <;>
        cases hdu : s.hasDynamicURLConstruction <;> cases hna : s.hasNetworkAPI <;>
          cases hsv : s.suspiciousVariableNames <;> simp [hen1, hen2, hdu, hna, hsv]
  case addPK =>
    unfold additiveScore
    by_cases hen : s.entropy > ENTROPY_THRESHOLD <;>
      cases hdu : s.hasDynamicURLConstruction <;> cases hna : s.hasNetworkAPI <;>
        cases hsv : s.suspiciousVariableNames <;>
          simp [hen, hdu, hna, hsv, List.filter_append]
  case addDM =>
    unfold additiveScore
    by_cases hen : s.entropy > ENTROPY_THRESHOLD <;>
      cases hdu : s.hasDynamicURLConstruction <;> cases hna : s.hasNetworkAPI <;>
        cases hsv : s.suspiciousVariableNames <;> simp [hen, hdu, hna, hsv]

/-- Witness for C4: instance at the fresh signals record, with the
entropy hypothesis discharged at `8`. -/
theorem score_monotone_bounded_witness :
    calculateSecurityScore initialSignals ≤
      calculateSecurityScore { initialSignals with hasEval := true }
    ∧ initialSignals.entropy ≤ 8
    ∧ calculateSecurityScore initialSignals ≤
        calculateSecurityScore { initialSignals with entropy := 8 } := by
  have h8 : initialSignals.entropy ≤ 8 := by norm_num [initialSignals]
  exact ⟨(score_monotone_bounded initialSignals).2.1, h8,
    (score_monotone_bounded initialSignals).2.2.2.2.2.2.2.2.2.2.2.2.1 8 h8⟩

/-- **C7.** In the additive scoring path (none of the eight
short-circuit flags set), the score gains exactly `25` per entry of
`referencedDomains`; the term counts every referenced domain, with no
regard to the caller's allow-list or the built-in CDN allow-list (the
score depends only on how many domains are referenced, never on which). -/
theorem score_counts_all_domains (s : SecuritySignals)
    (h : anyCriticalFlag s = false) :
    calculateSecurityScore s =
      min (additiveScore { s with referencedDomains := [] }
        + s.referencedDomains.length * 25) 100
    ∧ (∀ d, calculateSecurityScore { s with referencedDomains := s.referencedDomains ++ [d] }
        = min (additiveScore { s with referencedDomains := [] }
          + (s.referencedDomains.length + 1) * 25) 100)
    ∧ (∀ ds ds', ds.length = ds'.length →
        calculateSecurityScore { s with referencedDomains := ds }
          = calculateSecurityScore { s with referencedDomains := ds' }) := by
  have hadd : ∀ rd : List String,
      additiveScore { s with referencedDomains := rd }
        = additiveScore { s with referencedDomains := [] } + rd.length * 25 := by
    intro rd
    unfold additiveScore
    by_cases hen : s.entropy > ENTROPY_THRESHOLD <;>
      cases hdu : s.hasDynamicURLConstruction <;> cases hna : s.hasNetworkAPI <;>
        cases hsv : s.suspiciousVariableNames <;> simp [hen, hdu, hna, hsv]
  have hscore : ∀ rd : List String,
      calculateSecurityScore { s with referencedDomains := rd }
        = min (additiveScore { s with referencedDomains := [] } + rd.length * 25) 100 := by
    intro rd
    rw [calculateSecurityScore_eq]
    have : anyCriticalFlag { s with referencedDomains := rd } = false := h
    rw [this, hadd rd]
    simp
  refine ⟨?_, fun d => ?_, fun ds ds' hlen => ?_⟩
  · have := hscore s.referencedDomains
    simpa using this
  · simpa using hscore (s.referencedDomains ++ [d])
  · rw [hscore ds, hscore ds', hlen]

/-- Witness for C7 at a flag-free record with one allow-listed domain. -/
theorem score_counts_all_domains_witness :
    anyCriticalFlag { initialSignals with referencedDomains := ["cdn.jsdelivr.net"] } = false
    ∧ calculateSecurityScore { initialSignals with referencedDomains := ["cdn.jsdelivr.net"] }
        = min (additiveScore { ({ initialSignals with referencedDomains := ["cdn.jsdelivr.net"] } : SecuritySignals) with referencedDomains := [] }
          + (["cdn.jsdelivr.net"] : List String).length * 25) 100 :=
  ⟨rfl, (score_counts_all_domains
    { initialSignals with referencedDomains := ["cdn.jsdelivr.net"] } rfl).1⟩

/-! ## Context-sensitive severity adjustment -/

theorem contains_eq_decide_mem (l : List String) (a : String) :
    l.contains a = decide (a ∈ l) := by
  simp [List.contains]

/-- **C8.** `adjustViolationSeverity` returns the original severity
unchanged for user code and for files whose name contains the
infra-import marker; otherwise, in shared-library, bundled-dependency or
entry-point (`remoteEntry.js`) contexts, the six technical rules are
downgraded to `warning`, the three always-critical rules are forced to
`critical` regardless of input, and every other rule passes through
unchanged. -/
theorem adjustViolationSeverity_spec (rule : String) (sev : Severity) (ctx : FileContext) :
    (ctx.isUserCode = true → adjustViolationSeverity rule sev ctx = sev)
    ∧ (strIncludes ctx.filePath "__federation_fn_import" = true →
        adjustViolationSeverity rule sev ctx = sev)
    ∧ (ctx.isUserCode = false →
       strIncludes ctx.filePath "__federation_fn_import" = false →
       (ctx.isSharedLibrary = true ∨ ctx.isBundledDependency = true ∨
        ctx.filePath = "remoteEntry.js") →
        ((rule ∈ ["no-obfuscation", "no-dangerous-dom", "no-navigator-access",
                  "no-prototype-pollution", "no-global-override",
                  "no-network-without-permission"] →
            adjustViolationSeverity rule sev ctx = .warning)
         ∧ (rule ∈ ["no-eval", "no-storage-access", "no-storage-event"] →
            adjustViolationSeverity rule sev ctx = .critical)
         ∧ (rule ∉ ["no-obfuscation", "no-dangerous-dom", "no-navigator-access",
                    "no-prototype-pollution", "no-global-override",
                    "no-network-without-permission"] →
            rule ∉ ["no-eval", "no-storage-access", "no-storage-event"] →
            adjustViolationSeverity rule sev ctx = sev))) := by
  unfold adjustViolationSeverity
  refine ⟨fun hu => ?_, fun hf => ?_,
    fun hu hf hctx => ?_⟩
  · simp [hu]
  · cases hu : ctx.isUserCode <;> simp [hu, hf]
  · have hb : (ctx.isSharedLibrary || ctx.isBundledDependency ||
        decide (ctx.filePath = "remoteEntry.js")) = true := by
      rcases hctx with h | h | h <;> simp [h]
    refine ⟨fun hr => ?_, fun hr => ?_, fun hr1 hr2 => ?_⟩
    · simp [hu, hf, hb, contains_eq_decide_mem, hr]
    · have hr1 : rule ∉ ["no-obfuscation", "no-dangerous-dom", "no-navigator-access",
          "no-prototype-pollution", "no-global-override",
          "no-network-without-permission"] := by
        simp only [List.mem_cons, List.not_mem_nil, or_false] at hr ⊢
        rcases hr with rfl | rfl | rfl | rfl <;> simp
      simp [hu, hf, hb, contains_eq_decide_mem, hr, hr1]
    · simp [hu, hf, hb, contains_eq_decide_mem, hr1, hr2]

/-- Witness for C8: a shared-library context downgrades
`no-dangerous-dom` to `warning`; a user-code context keeps it
`critical`. -/
theorem adjustViolationSeverity_spec_witness :
    adjustViolationSeverity "no-dangerous-dom" .critical ⟨"lib.js", false, true, false⟩ = .warning
    ∧ adjustViolationSeverity "no-dangerous-dom" .critical ⟨"u.js", true, false, false⟩ = .critical := by
  constructor
  · exact ((adjustViolationSeverity_spec "no-dangerous-dom" .critical
      ⟨"lib.js", false, true, false⟩).2.2 rfl (by decide) (Or.inl rfl)).1 (by decide)
  · exact (adjustViolationSeverity_spec "no-dangerous-dom" .critical
      ⟨"u.js", true, false, false⟩).1 rfl

/-! ## The evolution relation of the tree walk -/

theorem FlagEvolves.transAlong {a b c : SecuritySignals} {f : SecuritySignals → Bool}
    {rules : List String} (h1 : FlagEvolves a b f rules) (h2 : FlagEvolves b c f rules)
    (hsub : ∀ v ∈ b.detectedViolations, v ∈ c.detectedViolations) :
    FlagEvolves a c f rules := by
  rcases h2 with h2 | ⟨h2, v, hv, hr⟩
  · rcases h1 with h1 | ⟨h1, v, hv, hr⟩
    · exact Or.inl (h2.trans h1)
    · exact Or.inr ⟨h2.trans h1, v, hsub v hv, hr⟩
  · exact Or.inr ⟨h2, v, hv, hr⟩

theorem Evolves.refl (a : SecuritySignals) : Evolves a a :=
  ⟨⟨[], by simp, by simp⟩, rfl, Or.inl rfl, Or.inl rfl, Or.inl rfl, Or.inl rfl,
   Or.inl rfl, Or.inl rfl, Or.inl rfl⟩

theorem Evolves.trans {a b c : SecuritySignals} (hab : Evolves a b)
    (hbc : Evolves b c) : Evolves a c := by
  obtain ⟨⟨t1, hdv1, hnr1⟩, hw1, he1, hd1, ho1, hg1, hs1, hn1, hdd1⟩ := hab
  obtain ⟨⟨t2, hdv2, hnr2⟩, hw2, he2, hd2, ho2, hg2, hs2, hn2, hdd2⟩ := hbc
  have hsub : ∀ v ∈ b.detectedViolations, v ∈ c.detectedViolations := by
    intro v hv
    rw [hdv2]
    exact List.mem_append_left _ hv
  refine ⟨⟨t1 ++ t2, by rw [hdv2, hdv1, List.append_assoc], ?_⟩, hw2.trans hw1,
    he1.transAlong he2 hsub, hd1.transAlong hd2 hsub, ho1.transAlong ho2 hsub,
    hg1.transAlong hg2 hsub, hs1.transAlong hs2 hsub, hn1.transAlong hn2 hsub,
    hdd1.transAlong hdd2 hsub⟩
  intro v hv
  rcases List.mem_append.mp hv with h | h
  · exact hnr1 v h
  · exact hnr2 v h

theorem flagEvolves_of_append {s s' : SecuritySignals} {f : SecuritySignals → Bool}
    {rules : List String} {v : Violation}
    (hdv : s'.detectedViolations = s.detectedViolations ++ [v])
    (h : f s' = f s ∨ (f s' = true ∧ v.rule ∈ rules)) : FlagEvolves s s' f rules := by
  rcases h with h | ⟨h1, h2⟩
  · exact Or.inl h
  · exact Or.inr ⟨h1, v, by simp [hdv], h2⟩

/-- A step that appends exactly one violation. -/
theorem evolves_of_append {s s' : SecuritySignals} {v : Violation}
    (hdv : s'.detectedViolations = s.detectedViolations ++ [v])
    (hrule : v.rule ≠ "no-network-without-permission")
    (hw : s'.hasNetworkWithoutPermission = s.hasNetworkWithoutPermission)
    (h1 : s'.hasEval = s.hasEval ∨ (s'.hasEval = true ∧ v.rule ∈ ["no-eval"]))
    (h2 : s'.hasDynamicCodeExecution = s.hasDynamicCodeExecution ∨
      (s'.hasDynamicCodeExecution = true ∧ v.rule ∈ ["no-string-timeout"]))
    (h3 : s'.hasObfuscatedCode = s.hasObfuscatedCode ∨
      (s'.hasObfuscatedCode = true ∧ v.rule ∈ ["no-obfuscation"]))
    (h4 : s'.hasGlobalVariableOverride = s.hasGlobalVariableOverride ∨
      (s'.hasGlobalVariableOverride = true ∧
        v.rule ∈ ["no-global-override", "no-prototype-pollution"]))
    (h5 : s'.hasStorageAccess = s.hasStorageAccess ∨
      (s'.hasStorageAccess = true ∧
        v.rule ∈ ["no-storage-access", "no-cookie-access", "no-indexeddb-access", "no-storage-event"]))
    (h6 : s'.hasNavigatorAccess = s.hasNavigatorAccess ∨
      (s'.hasNavigatorAccess = true ∧ v.rule ∈ ["no-navigator-access", "no-global-override"]))
    (h7 : s'.hasDangerousDOMManipulation = s.hasDangerousDOMManipulation ∨
      (s'.hasDangerousDOMManipulation = true ∧ v.rule ∈ ["no-dangerous-dom"])) :
    Evolves s s' :=
  ⟨⟨[v], hdv, by simpa using hrule⟩, hw, flagEvolves_of_append hdv h1,
   flagEvolves_of_append hdv h2, flagEvolves_of_append hdv h3,
   flagEvolves_of_append hdv h4, flagEvolves_of_append hdv h5,
   flagEvolves_of_append hdv h6, flagEvolves_of_append hdv h7⟩

/-- A step that leaves the violation list and every tracked flag
unchanged. -/
theorem evolves_of_untracked {s s' : SecuritySignals}
    (hdv : s'.detectedViolations = s.detectedViolations)
    (hw : s'.hasNetworkWithoutPermission = s.hasNetworkWithoutPermission)
    (h1 : s'.hasEval = s.hasEval)
    (h2 : s'.hasDynamicCodeExecution = s.hasDynamicCodeExecution)
    (h3 : s'.hasObfuscatedCode = s.hasObfuscatedCode)
    (h4 : s'.hasGlobalVariableOverride = s.hasGlobalVariableOverride)
    (h5 : s'.hasStorageAccess = s.hasStorageAccess)
    (h6 : s'.hasNavigatorAccess = s.hasNavigatorAccess)
    (h7 : s'.hasDangerousDOMManipulation = s.hasDangerousDOMManipulation) :
    Evolves s s' :=
  ⟨⟨[], by simp [hdv], by simp⟩, hw, Or.inl h1, Or.inl h2, Or.inl h3, Or.inl h4,
   Or.inl h5, Or.inl h6, Or.inl h7⟩

theorem Evolves.mem_mono {a b : SecuritySignals} (h : Evolves a b) {v : Violation}
    (hv : v ∈ a.detectedViolations) : v ∈ b.detectedViolations := by
  obtain ⟨⟨t, ht, _⟩, _⟩ := h
  rw [ht]
  exact List.mem_append_left _ hv

theorem Evolves.mono_globalOverride {a b : SecuritySignals} (h : Evolves a b)
    (ha : a.hasGlobalVariableOverride = true) : b.hasGlobalVariableOverride = true := by
  obtain ⟨_, _, _, _, _, hg, _, _, _⟩ := h
  rcases hg with hg | ⟨hg, _⟩
  · exact hg.trans ha
  · exact hg

theorem Evolves.nwp_eq {a b : SecuritySignals} (h : Evolves a b) :
    b.hasNetworkWithoutPermission = a.hasNetworkWithoutPermission := h.2.1

theorem Evolves.no_nwp_rule {a b : SecuritySignals} (h : Evolves a b)
    (ha : ∀ v ∈ a.detectedViolations, v.rule ≠ "no-network-without-permission") :
    ∀ v ∈ b.detectedViolations, v.rule ≠ "no-network-without-permission" := by
  obtain ⟨⟨t, ht, hn⟩, _⟩ := h
  intro v hv
  rw [ht] at hv
  rcases List.mem_append.mp hv with h | h
  · exact ha v h
  · exact hn v h

/-! ### Per-check evolution lemmas -/

theorem createViolation_rule (rule : String) (severity : Severity) (message : String)
    (node : Option Node) : (createViolation rule severity message node).rule = rule := rfl


theorem evalCheck_evolves (node : Node) (cn : Option String) (st : AnalyzerState) :
    Evolves st.signals (evalCheck node cn st).signals := by
  unfold evalCheck
  split
  · exact evolves_of_append rfl (by simp [createViolation_rule]) rfl (Or.inr ⟨rfl, by simp [createViolation_rule]⟩) (Or.inl rfl)
      (Or.inl rfl) (Or.inl rfl) (Or.inl rfl) (Or.inl rfl) (Or.inl rfl)
  · exact Evolves.refl _

theorem stringTimeoutCheck_evolves (node : Node) (cn : Option String) (args : List Node)
    (st : AnalyzerState) : Evolves st.signals (stringTimeoutCheck node cn args st).signals := by
  unfold stringTimeoutCheck
  split
  · split
    · exact evolves_of_append rfl (by simp [createViolation_rule]) rfl (Or.inl rfl) (Or.inr ⟨rfl, by simp [createViolation_rule]⟩)
        (Or.inl rfl) (Or.inl rfl) (Or.inl rfl) (Or.inl rfl) (Or.inl rfl)
    · exact Evolves.refl _
  · exact Evolves.refl _

theorem fetchXhrCheck_evolves (cn : Option String) (args : List Node)
    (st : AnalyzerState) : Evolves st.signals (fetchXhrCheck cn args st).signals := by
  unfold fetchXhrCheck
  split
  · split
    · exact evolves_of_untracked rfl rfl rfl rfl rfl rfl rfl rfl rfl
    · exact evolves_of_untracked rfl rfl rfl rfl rfl rfl rfl rfl rfl
  · exact Evolves.refl _

theorem webSocketCheck_evolves (cn : Option String) (args : List Node)
    (st : AnalyzerState) : Evolves st.signals (webSocketCheck cn args st).signals := by
  unfold webSocketCheck
  split
  · split
    · exact evolves_of_untracked rfl rfl rfl rfl rfl rfl rfl rfl rfl
    · exact evolves_of_untracked rfl rfl rfl rfl rfl rfl rfl rfl rfl
  · exact Evolves.refl _

theorem sendBeaconCheck_evolves (node callee : Node) (st : AnalyzerState) :
    Evolves st.signals (sendBeaconCheck node callee st).signals := by
  unfold sendBeaconCheck
  split
  · exact evolves_of_append rfl (by simp [createViolation_rule]) rfl (Or.inl rfl) (Or.inl rfl) (Or.inl rfl)
      (Or.inl rfl) (Or.inl rfl) (Or.inr ⟨rfl, by simp [createViolation_rule]⟩) (Or.inl rfl)
  · exact Evolves.refl _

theorem insertAdjacentHtmlCheck_evolves (node : Node) (cn : Option String)
    (st : AnalyzerState) : Evolves st.signals (insertAdjacentHtmlCheck node cn st).signals := by
  unfold insertAdjacentHtmlCheck
  split
  · exact evolves_of_append rfl (by simp [createViolation_rule]) rfl (Or.inl rfl) (Or.inl rfl) (Or.inl rfl)
      (Or.inl rfl) (Or.inl rfl) (Or.inl rfl) (Or.inr ⟨rfl, by simp [createViolation_rule]⟩)
  · exact Evolves.refl _

theorem createElementCheck_evolves (node callee : Node) (args : List Node)
    (st : AnalyzerState) : Evolves st.signals (createElementCheck node callee args st).signals := by
  unfold createElementCheck
  split
  · split
    · split
      · dsimp only
        split
        · exact evolves_of_append rfl (by simp [createViolation_rule]) rfl (Or.inl rfl) (Or.inl rfl)
            (Or.inl rfl) (Or.inl rfl) (Or.inl rfl) (Or.inl rfl) (Or.inr ⟨rfl, by simp [createViolation_rule]⟩)
        · exact Evolves.refl _
      · exact Evolves.refl _
    · exact Evolves.refl _
  · exact Evolves.refl _

theorem obfuscationCalleeCheck_evolves (node : Node) (cn : Option String)
    (st : AnalyzerState) : Evolves st.signals (obfuscationCalleeCheck node cn st).signals := by
  unfold obfuscationCalleeCheck
  split
  · exact evolves_of_append rfl (by simp [createViolation_rule]) rfl (Or.inl rfl) (Or.inl rfl)
      (Or.inr ⟨rfl, by simp [createViolation_rule]⟩) (Or.inl rfl) (Or.inl rfl) (Or.inl rfl) (Or.inl rfl)
  · exact Evolves.refl _

theorem fromCharCodeCheck_evolves (node callee : Node) (st : AnalyzerState) :
    Evolves st.signals (fromCharCodeCheck node callee st).signals := by
  unfold fromCharCodeCheck
  split
  · exact evolves_of_append rfl (by simp [createViolation_rule]) rfl (Or.inl rfl) (Or.inl rfl)
      (Or.inr ⟨rfl, by simp [createViolation_rule]⟩) (Or.inl rfl) (Or.inl rfl) (Or.inl rfl) (Or.inl rfl)
  · exact Evolves.refl _

theorem storageEventListenerCheck_evolves (node callee : Node) (args : List Node)
    (st : AnalyzerState) : Evolves st.signals (storageEventListenerCheck node callee args st).signals := by
  unfold storageEventListenerCheck
  split
  · split
    · split
      · exact evolves_of_append rfl (by simp [createViolation_rule]) rfl (Or.inl rfl) (Or.inl rfl)
          (Or.inl rfl) (Or.inl rfl) (Or.inr ⟨rfl, by simp [createViolation_rule]⟩) (Or.inl rfl) (Or.inl rfl)
      · exact Evolves.refl _
    · exact Evolves.refl _
  · exact Evolves.refl _

theorem globalOverrideCheck_evolves (node left : Node) (st : AnalyzerState) :
    Evolves st.signals (globalOverrideCheck node left st).signals := by
  unfold globalOverrideCheck
  split
  · split
    · split
      · exact evolves_of_append rfl (by simp [createViolation_rule]) rfl (Or.inl rfl) (Or.inl rfl)
          (Or.inl rfl) (Or.inr ⟨rfl, by simp [createViolation_rule]⟩) (Or.inl rfl) (Or.inr ⟨rfl, by simp [createViolation_rule]⟩)
          (Or.inl rfl)
      · exact evolves_of_append rfl (by simp [createViolation_rule]) rfl (Or.inl rfl) (Or.inl rfl)
          (Or.inl rfl) (Or.inr ⟨rfl, by simp [createViolation_rule]⟩) (Or.inl rfl) (Or.inl rfl) (Or.inl rfl)
    · exact Evolves.refl _
  · exact Evolves.refl _

theorem prototypePollutionCheck_evolves (node left : Node) (st : AnalyzerState) :
    Evolves st.signals (prototypePollutionCheck node left st).signals := by
  unfold prototypePollutionCheck
  split
  · exact evolves_of_append rfl (by simp [createViolation_rule]) rfl (Or.inl rfl) (Or.inl rfl)
      (Or.inl rfl) (Or.inr ⟨rfl, by simp [createViolation_rule]⟩) (Or.inl rfl) (Or.inl rfl) (Or.inl rfl)
  · exact Evolves.refl _

theorem onstorageAssignCheck_evolves (node left : Node) (st : AnalyzerState) :
    Evolves st.signals (onstorageAssignCheck node left st).signals := by
  unfold onstorageAssignCheck
  split
  · exact evolves_of_append rfl (by simp [createViolation_rule]) rfl (Or.inl rfl) (Or.inl rfl)
      (Or.inl rfl) (Or.inl rfl) (Or.inr ⟨rfl, by simp [createViolation_rule]⟩) (Or.inl rfl) (Or.inl rfl)
  · exact Evolves.refl _

theorem storageObjectCheck_evolves (node : Node) (objectName : Option String)
    (st : AnalyzerState) : Evolves st.signals (storageObjectCheck node objectName st).signals := by
  unfold storageObjectCheck
  split
  · exact evolves_of_append rfl (by simp [createViolation_rule]) rfl (Or.inl rfl) (Or.inl rfl)
      (Or.inl rfl) (Or.inl rfl) (Or.inr ⟨rfl, by simp [createViolation_rule]⟩) (Or.inl rfl) (Or.inl rfl)
  · exact Evolves.refl _

theorem cookieCheck_evolves (node : Node) (objectName propertyName : Option String)
    (st : AnalyzerState) : Evolves st.signals (cookieCheck node objectName propertyName st).signals := by
  unfold cookieCheck
  split
  · exact evolves_of_append rfl (by simp [createViolation_rule]) rfl (Or.inl rfl) (Or.inl rfl)
      (Or.inl rfl) (Or.inl rfl) (Or.inr ⟨rfl, by simp [createViolation_rule]⟩) (Or.inl rfl) (Or.inl rfl)
  · exact Evolves.refl _

theorem indexedDBCheck_evolves (node : Node) (objectName : Option String)
    (st : AnalyzerState) : Evolves st.signals (indexedDBCheck node objectName st).signals := by
  unfold indexedDBCheck
  split
  · exact evolves_of_append rfl (by simp [createViolation_rule]) rfl (Or.inl rfl) (Or.inl rfl)
      (Or.inl rfl) (Or.inl rfl) (Or.inr ⟨rfl, by simp [createViolation_rule]⟩) (Or.inl rfl) (Or.inl rfl)
  · exact Evolves.refl _

theorem navigatorMemberCheck_evolves (node : Node) (objectName propertyName : Option String)
    (st : AnalyzerState) :
    Evolves st.signals (navigatorMemberCheck node objectName propertyName st).signals := by
  unfold navigatorMemberCheck
  split
  · exact evolves_of_append rfl (by simp [createViolation_rule]) rfl (Or.inl rfl) (Or.inl rfl)
      (Or.inl rfl) (Or.inl rfl) (Or.inl rfl) (Or.inr ⟨rfl, by simp [createViolation_rule]⟩) (Or.inl rfl)
  · exact Evolves.refl _

theorem innerHtmlAssignCheck_evolves (node : Node) (propertyName : Option String)
    (ctx : WalkCtx) (st : AnalyzerState) :
    Evolves st.signals (innerHtmlAssignCheck node propertyName ctx st).signals := by
  unfold innerHtmlAssignCheck
  split
  · split
    · exact evolves_of_append rfl (by simp [createViolation_rule]) rfl (Or.inl rfl) (Or.inl rfl)
        (Or.inl rfl) (Or.inl rfl) (Or.inl rfl) (Or.inl rfl) (Or.inr ⟨rfl, by simp [createViolation_rule]⟩)
    · exact Evolves.refl _
  · exact Evolves.refl _

theorem documentHeadCheck_evolves (node : Node) (objectName propertyName : Option String)
    (st : AnalyzerState) :
    Evolves st.signals (documentHeadCheck node objectName propertyName st).signals := by
  unfold documentHeadCheck
  split
  · exact evolves_of_append rfl (by simp [createViolation_rule]) rfl (Or.inl rfl) (Or.inl rfl)
      (Or.inl rfl) (Or.inl rfl) (Or.inl rfl) (Or.inl rfl) (Or.inr ⟨rfl, by simp [createViolation_rule]⟩)
  · exact Evolves.refl _

theorem visitImportDeclaration_evolves (node : Node) (source : String)
    (st : AnalyzerState) : Evolves st.signals (visitImportDeclaration node source st).signals := by
  unfold visitImportDeclaration
  split
  · exact evolves_of_append rfl (by simp [createViolation_rule]) rfl (Or.inl rfl) (Or.inl rfl)
      (Or.inl rfl) (Or.inl rfl) (Or.inl rfl) (Or.inl rfl) (Or.inl rfl)
  · exact evolves_of_untracked rfl rfl rfl rfl rfl rfl rfl rfl rfl

theorem visitIdentifier_evolves (node : Node) (name : String) (ctx : WalkCtx)
    (st : AnalyzerState) : Evolves st.signals (visitIdentifier node name ctx st).signals := by
  unfold visitIdentifier
  split
  · split
    · exact Evolves.refl _
    · exact evolves_of_append rfl (by simp [createViolation_rule]) rfl (Or.inl rfl) (Or.inl rfl)
        (Or.inl rfl) (Or.inl rfl) (Or.inl rfl) (Or.inr ⟨rfl, by simp [createViolation_rule]⟩) (Or.inl rfl)
  · exact Evolves.refl _

theorem visitLiteral_evolves (node : Node) (value : LitValue) (st : AnalyzerState) :
    Evolves st.signals (visitLiteral node value st).signals := by
  unfold visitLiteral
  split
  · exact Evolves.refl _
  · split
    · exact evolves_of_append rfl (by simp [createViolation_rule]) rfl (Or.inl rfl) (Or.inl rfl)
        (Or.inr ⟨rfl, by simp [createViolation_rule]⟩) (Or.inl rfl) (Or.inl rfl) (Or.inl rfl) (Or.inl rfl)
    · exact evolves_of_untracked rfl rfl rfl rfl rfl rfl rfl rfl rfl

theorem visitCallExpression_evolves (node callee : Node) (args : List Node)
    (st : AnalyzerState) : Evolves st.signals (visitCallExpression node callee args st).signals := by
  simp only [visitCallExpression]
  exact (((((((((evalCheck_evolves node _ st).trans
    (stringTimeoutCheck_evolves node _ args _)).trans
    (fetchXhrCheck_evolves _ args _)).trans
    (webSocketCheck_evolves _ args _)).trans
    (sendBeaconCheck_evolves node callee _)).trans
    (insertAdjacentHtmlCheck_evolves node _ _)).trans
    (createElementCheck_evolves node callee args _)).trans
    (obfuscationCalleeCheck_evolves node _ _)).trans
    (fromCharCodeCheck_evolves node callee _)).trans
    (storageEventListenerCheck_evolves node callee args _)

theorem visitAssignmentExpression_evolves (node left : Node) (st : AnalyzerState) :
    Evolves st.signals (visitAssignmentExpression node left st).signals := by
  simp only [visitAssignmentExpression]
  exact ((globalOverrideCheck_evolves node left st).trans
    (prototypePollutionCheck_evolves node left _)).trans
    (onstorageAssignCheck_evolves node left _)

theorem visitMemberExpression_evolves (node object property : Node) (ctx : WalkCtx)
    (st : AnalyzerState) :
    Evolves st.signals (visitMemberExpression node object property ctx st).signals := by
  simp only [visitMemberExpression]
  exact (((((storageObjectCheck_evolves node _ st).trans
    (cookieCheck_evolves node _ _ _)).trans
    (indexedDBCheck_evolves node _ _)).trans
    (navigatorMemberCheck_evolves node _ _ _)).trans
    (innerHtmlAssignCheck_evolves node _ ctx _)).trans
    (documentHeadCheck_evolves node _ _ _)

theorem visitOne_evolves (st : AnalyzerState) (p : Node × WalkCtx) :
    Evolves st.signals (visitOne st p).signals := by
  obtain ⟨n, ctx⟩ := p
  cases n with
  | callExpr callee args =>
      exact visitCallExpression_evolves (.callExpr callee args) callee args st
  | assignExpr left right =>
      exact visitAssignmentExpression_evolves (.assignExpr left right) left st
  | memberExpr object property computed =>
      exact visitMemberExpression_evolves (.memberExpr object property computed)
        object property ctx st
  | importDecl source =>
      exact visitImportDeclaration_evolves (.importDecl source) source st
  | ident name => exact visitIdentifier_evolves (.ident name) name ctx st
  | lit value => exact visitLiteral_evolves (.lit value) value st
  | tree children => exact Evolves.refl _

theorem foldl_visitOne_evolves (l : List (Node × WalkCtx)) (st : AnalyzerState) :
    Evolves st.signals (l.foldl visitOne st).signals := by
  induction l generalizing st with
  | nil => exact Evolves.refl _
  | cons p rest ih =>
      exact (visitOne_evolves st p).trans (ih (visitOne st p))

/-! ### Post-pass evolution -/

theorem applyEntropy_evolves (P : ExternalPrims) (strs : List String)
    (signals : SecuritySignals) : Evolves signals (applyEntropy P strs signals) := by
  unfold applyEntropy
  dsimp only
  split
  · exact evolves_of_append rfl (by simp [createViolation_rule]) rfl (Or.inl rfl)
      (Or.inl rfl) (Or.inr ⟨rfl, by simp [createViolation_rule]⟩) (Or.inl rfl)
      (Or.inl rfl) (Or.inl rfl) (Or.inl rfl)
  · exact evolves_of_untracked rfl rfl rfl rfl rfl rfl rfl rfl rfl

theorem applySuspiciousNames_evolves (P : ExternalPrims) (names : List String)
    (signals : SecuritySignals) : Evolves signals (applySuspiciousNames P names signals) := by
  unfold applySuspiciousNames
  dsimp only
  split
  · exact evolves_of_append rfl (by simp [createViolation_rule]) rfl (Or.inl rfl)
      (Or.inl rfl) (Or.inr ⟨rfl, by simp [createViolation_rule]⟩) (Or.inl rfl)
      (Or.inl rfl) (Or.inl rfl) (Or.inl rfl)
  · exact Evolves.refl _

theorem applyDomains_evolves (P : ExternalPrims) (urls : List String)
    (signals : SecuritySignals) : Evolves signals (applyDomains P urls signals) :=
  evolves_of_untracked rfl rfl rfl rfl rfl rfl rfl rfl rfl

/-- The permission post-pass either leaves the signals untouched or —
exactly when a network API was seen and the unauthorized-or-dynamic
condition holds — sets `hasNetworkWithoutPermission` and appends the one
location-free `no-network-without-permission` violation. -/
theorem applyPermissionCheck_cases (permissions : Option CodePermissions)
    (s : SecuritySignals) :
    (¬ (s.hasNetworkAPI = true
        ∧ (hasUnauthorizedDomain permissions s || s.hasDynamicURLConstruction) = true)
      ∧ applyPermissionCheck permissions s = s)
    ∨ (s.hasNetworkAPI = true
       ∧ (hasUnauthorizedDomain permissions s || s.hasDynamicURLConstruction) = true
       ∧ applyPermissionCheck permissions s =
          { s with hasNetworkWithoutPermission := true
                   detectedViolations := s.detectedViolations ++
                     [createViolation "no-network-without-permission" .critical
                       "ネットワーク通信にはxrift.config.tsでの権限宣言が必要です" none] }) := by
  unfold applyPermissionCheck
  split
  case isTrue h1 =>
    split
    case isTrue h2 => exact Or.inr ⟨h1, h2, rfl⟩
    case isFalse h2 => exact Or.inl ⟨fun hc => h2 hc.2, rfl⟩
  case isFalse h1 => exact Or.inl ⟨fun hc => h1 hc.1, rfl⟩

/-- **C9.** For every tree the detector accepts, each boolean flag of
the returned `SecuritySignals` that is `true` is backed by at least one
entry of `detectedViolations` whose rule is one of the rules emitted by
the code sites that set the flag; `hasNetworkAPI`,
`hasDynamicURLConstruction` and `suspiciousVariableNames` are pure
signals with no dedicated violation of their own and are not covered.
(For `hasNavigatorAccess`, the navigator-assignment site records the
access under the `no-global-override` violation it emits together with
the flag, so that rule belongs to the backing set.) -/
theorem signals_flags_backed (P : ExternalPrims) (ast : Node)
    (permissions : Option CodePermissions) :
    ((analyzeCodeSecurity P ast permissions).hasEval = true →
      ∃ v ∈ (analyzeCodeSecurity P ast permissions).detectedViolations,
        v.rule ∈ ["no-eval"])
    ∧ ((analyzeCodeSecurity P ast permissions).hasDynamicCodeExecution = true →
      ∃ v ∈ (analyzeCodeSecurity P ast permissions).detectedViolations,
        v.rule ∈ ["no-string-timeout"])
    ∧ ((analyzeCodeSecurity P ast permissions).hasNetworkWithoutPermission = true →
      ∃ v ∈ (analyzeCodeSecurity P ast permissions).detectedViolations,
        v.rule ∈ ["no-network-without-permission"])
    ∧ ((analyzeCodeSecurity P ast permissions).hasObfuscatedCode = true →
      ∃ v ∈ (analyzeCodeSecurity P ast permissions).detectedViolations,
        v.rule ∈ ["no-obfuscation"])
    ∧ ((analyzeCodeSecurity P ast permissions).hasGlobalVariableOverride = true →
      ∃ v ∈ (analyzeCodeSecurity P ast permissions).detectedViolations,
        v.rule ∈ ["no-global-override", "no-prototype-pollution"])
    ∧ ((analyzeCodeSecurity P ast permissions).hasStorageAccess = true →
      ∃ v ∈ (analyzeCodeSecurity P ast permissions).detectedViolations,
        v.rule ∈ ["no-storage-access", "no-cookie-access", "no-indexeddb-access",
                  "no-storage-event"])
    ∧ ((analyzeCodeSecurity P ast permissions).hasNavigatorAccess = true →
      ∃ v ∈ (analyzeCodeSecurity P ast permissions).detectedViolations,
        v.rule ∈ ["no-navigator-access", "no-global-override"])
    ∧ ((analyzeCodeSecurity P ast permissions).hasDangerousDOMManipulation = true →
      ∃ v ∈ (analyzeCodeSecurity P ast permissions).detectedViolations,
        v.rule ∈ ["no-dangerous-dom"]) := by
  obtain ⟨st, hst⟩ : ∃ st, st = (postOrder ast rootCtx).foldl visitOne initialState :=
    ⟨_, rfl⟩
  obtain ⟨s3, hs3⟩ : ∃ s3, s3 = applyDomains P st.urlStrings
      (applySuspiciousNames P st.variableNames (applyEntropy P st.stringLiterals st.signals)) :=
    ⟨_, rfl⟩
  have hana : analyzeCodeSecurity P ast permissions = applyPermissionCheck permissions s3 := by
    rw [hs3, hst]
    rfl
  have hw0 : Evolves initialSignals st.signals := by
    rw [hst]
    exact foldl_visitOne_evolves _ initialState
  have hpre : Evolves initialSignals s3 := by
    rw [hs3]
    exact ((hw0.trans (applyEntropy_evolves P st.stringLiterals st.signals)).trans
      (applySuspiciousNames_evolves P st.variableNames _)).trans
      (applyDomains_evolves P st.urlStrings _)
  have hback : ∀ (f : SecuritySignals → Bool) (rules : List String),
      FlagEvolves initialSignals s3 f rules → f initialSignals = false →
      f s3 = true → ∃ v ∈ s3.detectedViolations, v.rule ∈ rules := by
    intro f rules hfe hinit hf
    rcases hfe with h | ⟨_, v, hv, hr⟩
    · rw [hf, hinit] at h
      exact absurd h (by simp)
    · exact ⟨v, hv, hr⟩
  obtain ⟨happ, hnwp, he, hd, ho, hg, hsA, hn, hdd⟩ := hpre
  rcases applyPermissionCheck_cases permissions s3 with ⟨hc, hfin⟩ | ⟨hnet, hcond, hfin⟩
  · rw [hana, hfin]
    refine ⟨hback _ _ he rfl, hback _ _ hd rfl, ?_, hback _ _ ho rfl, hback _ _ hg rfl,
      hback _ _ hsA rfl, hback _ _ hn rfl, hback _ _ hdd rfl⟩
    intro hnwpT
    rw [hnwp] at hnwpT
    exact absurd hnwpT (by simp [initialSignals])
  · rw [hana, hfin]
    have tr : ∀ (f : SecuritySignals → Bool) (rules : List String),
        FlagEvolves initialSignals s3 f rules → f initialSignals = false →
        f s3 = true →
        ∃ v ∈ s3.detectedViolations ++
          [createViolation "no-network-without-permission" .critical
            "ネットワーク通信にはxrift.config.tsでの権限宣言が必要です" none],
          v.rule ∈ rules := by
      intro f rules hfe hinit hf
      obtain ⟨v, hv, hr⟩ := hback f rules hfe hinit hf
      exact ⟨v, List.mem_append_left _ hv, hr⟩
    exact ⟨fun hf => tr _ _ he rfl hf, fun hf => tr _ _ hd rfl hf,
      fun _ => ⟨createViolation "no-network-without-permission" .critical
        "ネットワーク通信にはxrift.config.tsでの権限宣言が必要です" none,
        by simp, by simp [createViolation_rule]⟩,
      fun hf => tr _ _ ho rfl hf, fun hf => tr _ _ hg rfl hf,
      fun hf => tr _ _ hsA rfl hf, fun hf => tr _ _ hn rfl hf,
      fun hf => tr _ _ hdd rfl hf⟩

/-- Witness for C9: an `eval` call yields `hasEval` backed by a
`no-eval` violation. -/
theorem signals_flags_backed_witness :
    ∃ v ∈ (analyzeCodeSecurity constPrims (.callExpr (.ident "eval") [])
      none).detectedViolations, v.rule ∈ ["no-eval"] :=
  (signals_flags_backed constPrims (.callExpr (.ident "eval") []) none).1 rfl

/-- **C6.** The `no-network-without-permission` violation is raised (and
`hasNetworkWithoutPermission` set) if and only if `hasNetworkAPI` is set
and either some referenced domain is outside both the caller's
`allowedDomains` and the built-in CDN allow-list, or
`hasDynamicURLConstruction` is set — in particular it fires on
`hasDynamicURLConstruction` alone with zero extracted domains — and the
violation carries no source location. -/
theorem network_without_permission_iff (P : ExternalPrims) (ast : Node)
    (permissions : Option CodePermissions) :
    ((analyzeCodeSecurity P ast permissions).hasNetworkWithoutPermission = true ↔
      ((analyzeCodeSecurity P ast permissions).hasNetworkAPI = true ∧
       (hasUnauthorizedDomain permissions (analyzeCodeSecurity P ast permissions) = true ∨
        (analyzeCodeSecurity P ast permissions).hasDynamicURLConstruction = true)))
    ∧ ((analyzeCodeSecurity P ast permissions).hasNetworkWithoutPermission = true ↔
      ∃ v ∈ (analyzeCodeSecurity P ast permissions).detectedViolations,
        v.rule = "no-network-without-permission")
    ∧ (∀ v ∈ (analyzeCodeSecurity P ast permissions).detectedViolations,
        v.rule = "no-network-without-permission" → v.location = none) := by
  obtain ⟨st, hst⟩ : ∃ st, st = (postOrder ast rootCtx).foldl visitOne initialState :=
    ⟨_, rfl⟩
  obtain ⟨s3, hs3⟩ : ∃ s3, s3 = applyDomains P st.urlStrings
      (applySuspiciousNames P st.variableNames (applyEntropy P st.stringLiterals st.signals)) :=
    ⟨_, rfl⟩
  have hana : analyzeCodeSecurity P ast permissions = applyPermissionCheck permissions s3 := by
    rw [hs3, hst]
    rfl
  have hw0 : Evolves initialSignals st.signals := by
    rw [hst]
    exact foldl_visitOne_evolves _ initialState
  have hpre : Evolves initialSignals s3 := by
    rw [hs3]
    exact ((hw0.trans (applyEntropy_evolves P st.stringLiterals st.signals)).trans
      (applySuspiciousNames_evolves P st.variableNames _)).trans
      (applyDomains_evolves P st.urlStrings _)
  have hnwp0 : s3.hasNetworkWithoutPermission = false := by
    rw [hpre.nwp_eq]
    rfl
  have hnorule : ∀ v ∈ s3.detectedViolations, v.rule ≠ "no-network-without-permission" :=
    hpre.no_nwp_rule (fun v hv => absurd hv (by simp [initialSignals]))
  rcases applyPermissionCheck_cases permissions s3 with ⟨hc, hfin⟩ | ⟨hnet, hcond, hfin⟩
  · rw [hana, hfin]
    have hiff1 : s3.hasNetworkWithoutPermission = true ↔
        (s3.hasNetworkAPI = true ∧
          (hasUnauthorizedDomain permissions s3 = true ∨
           s3.hasDynamicURLConstruction = true)) := by
      constructor
      · intro h
        rw [hnwp0] at h
        exact absurd h (by simp)
      · rintro ⟨h1, h2⟩
        refine absurd ⟨h1, ?_⟩ hc
        rcases h2 with h | h <;> simp [h]
    have hiff2 : s3.hasNetworkWithoutPermission = true ↔
        ∃ v ∈ s3.detectedViolations, v.rule = "no-network-without-permission" := by
      constructor
      · intro h
        rw [hnwp0] at h
        exact absurd h (by simp)
      · rintro ⟨v, hv, hr⟩
        exact absurd hr (hnorule v hv)
    exact ⟨hiff1, hiff2, fun v hv hr => absurd hr (hnorule v hv)⟩
  · rw [hana, hfin]
    rw [Bool.or_eq_true] at hcond
    refine ⟨⟨fun _ => ⟨hnet, hcond⟩, fun _ => rfl⟩,
      ⟨fun _ => ⟨createViolation "no-network-without-permission" .critical
        "ネットワーク通信にはxrift.config.tsでの権限宣言が必要です" none, by simp, rfl⟩,
       fun _ => rfl⟩, ?_⟩
    intro v hv hr
    rcases List.mem_append.mp hv with h | h
    · exact absurd hr (hnorule v h)
    · rw [List.mem_singleton.mp h]
      rfl

/-- Witness for C6: `fetch` with a non-literal argument raises the
violation with zero extracted domains, and the violation has no
location. -/
theorem network_without_permission_iff_witness :
    (analyzeCodeSecurity constPrims (.callExpr (.ident "fetch") [.ident "u"])
      none).referencedDomains = []
    ∧ ∃ v ∈ (analyzeCodeSecurity constPrims (.callExpr (.ident "fetch") [.ident "u"])
        none).detectedViolations,
        v.rule = "no-network-without-permission" ∧ v.location = none := by
  refine ⟨rfl, ?_⟩
  obtain ⟨v, hv, hr⟩ := (network_without_permission_iff constPrims
    (.callExpr (.ident "fetch") [.ident "u"]) none).2.1.mp rfl
  exact ⟨v, hv, hr, (network_without_permission_iff constPrims
    (.callExpr (.ident "fetch") [.ident "u"]) none).2.2 v hv hr⟩

/-! ### Prototype-pollution assignments short-circuit the score -/

theorem prototypePollutionCheck_sets (node left : Node) (st : AnalyzerState)
    (h : isPrototypeAssignTarget left = true) :
    (prototypePollutionCheck node left st).signals.hasGlobalVariableOverride = true
    ∧ ∃ v ∈ (prototypePollutionCheck node left st).signals.detectedViolations,
        v.rule = "no-prototype-pollution" := by
  unfold isPrototypeAssignTarget at h
  split at h
  · unfold prototypePollutionCheck
    exact ⟨rfl, createViolation "no-prototype-pollution" .critical
      "プロトタイプ汚染は禁止されています" (some node), by simp, rfl⟩
  · exact absurd h (by simp)

theorem visitAssignmentExpression_sets_proto (node left : Node) (st : AnalyzerState)
    (h : isPrototypeAssignTarget left = true) :
    (visitAssignmentExpression node left st).signals.hasGlobalVariableOverride = true
    ∧ ∃ v ∈ (visitAssignmentExpression node left st).signals.detectedViolations,
        v.rule = "no-prototype-pollution" := by
  simp only [visitAssignmentExpression]
  obtain ⟨hf, v, hv, hr⟩ := prototypePollutionCheck_sets node left
    (globalOverrideCheck node left st) h
  have hev := onstorageAssignCheck_evolves node left
    (prototypePollutionCheck node left (globalOverrideCheck node left st))
  exact ⟨hev.mono_globalOverride hf, v, hev.mem_mono hv, hr⟩

theorem visitOne_sets_proto (st : AnalyzerState) (p : Node × WalkCtx)
    (h : (match p.1 with
          | .assignExpr left _ => isPrototypeAssignTarget left
          | _ => false) = true) :
    (visitOne st p).signals.hasGlobalVariableOverride = true
    ∧ ∃ v ∈ (visitOne st p).signals.detectedViolations,
        v.rule = "no-prototype-pollution" := by
  obtain ⟨n, ctx⟩ := p
  cases n
  case assignExpr left right =>
    exact visitAssignmentExpression_sets_proto (.assignExpr left right) left st h
  all_goals exact Bool.noConfusion h

theorem foldl_visitOne_proto (l : List (Node × WalkCtx)) (st : AnalyzerState)
    (h : ∃ p ∈ l, (match p.1 with
          | .assignExpr left _ => isPrototypeAssignTarget left
          | _ => false) = true) :
    (l.foldl visitOne st).signals.hasGlobalVariableOverride = true
    ∧ ∃ v ∈ (l.foldl visitOne st).signals.detectedViolations,
        v.rule = "no-prototype-pollution" := by
  induction l generalizing st with
  | nil => simp at h
  | cons q rest ih =>
    rw [List.foldl_cons]
    rcases h with ⟨p, hp, htrig⟩
    rcases List.mem_cons.mp hp with rfl | hp
    · obtain ⟨hf, v, hv, hr⟩ := visitOne_sets_proto st p htrig
      have hev := foldl_visitOne_evolves rest (visitOne st p)
      exact ⟨hev.mono_globalOverride hf, v, hev.mem_mono hv, hr⟩
    · exact ih (visitOne st q) ⟨p, hp, htrig⟩

/-- **C10.** Any tree in which the walker visits an assignment whose
left side has the shape `X.prototype.y` (for any expression `X`) gets
`hasGlobalVariableOverride` set in addition to the
`no-prototype-pollution` critical violation, and therefore receives
security score exactly `100` through the short-circuit path — no
`window`/`globalThis`/`document`/`navigator` assignment is needed. -/
theorem prototype_assignment_scores_100 (P : ExternalPrims) (ast : Node)
    (permissions : Option CodePermissions)
    (h : containsPrototypeAssignment ast = true) :
    (analyzeCodeSecurity P ast permissions).hasGlobalVariableOverride = true
    ∧ (∃ v ∈ (analyzeCodeSecurity P ast permissions).detectedViolations,
        v.rule = "no-prototype-pollution")
    ∧ calculateSecurityScore (analyzeCodeSecurity P ast permissions) = 100 := by
  unfold containsPrototypeAssignment at h
  rw [List.any_eq_true] at h
  obtain ⟨st, hst⟩ : ∃ st, st = (postOrder ast rootCtx).foldl visitOne initialState :=
    ⟨_, rfl⟩
  obtain ⟨s3, hs3⟩ : ∃ s3, s3 = applyDomains P st.urlStrings
      (applySuspiciousNames P st.variableNames (applyEntropy P st.stringLiterals st.signals)) :=
    ⟨_, rfl⟩
  have hana : analyzeCodeSecurity P ast permissions = applyPermissionCheck permissions s3 := by
    rw [hs3, hst]
    rfl
  have hw : st.signals.hasGlobalVariableOverride = true
      ∧ ∃ v ∈ st.signals.detectedViolations, v.rule = "no-prototype-pollution" := by
    rw [hst]
    exact foldl_visitOne_proto _ initialState h
  obtain ⟨hfW, vW, hvW, hrW⟩ := hw
  have hevPost : Evolves st.signals s3 := by
    rw [hs3]
    exact ((applyEntropy_evolves P st.stringLiterals st.signals).trans
      (applySuspiciousNames_evolves P st.variableNames _)).trans
      (applyDomains_evolves P st.urlStrings _)
  have hf3 : s3.hasGlobalVariableOverride = true := hevPost.mono_globalOverride hfW
  have hv3 : vW ∈ s3.detectedViolations := hevPost.mem_mono hvW
  rcases applyPermissionCheck_cases permissions s3 with ⟨_, hfin⟩ | ⟨_, _, hfin⟩
  · rw [hana, hfin]
    exact ⟨hf3, ⟨vW, hv3, hrW⟩,
      calculateSecurityScore_of_flag _ (by simp [anyCriticalFlag, hf3])⟩
  · rw [hana, hfin]
    exact ⟨hf3, ⟨vW, List.mem_append_left _ hv3, hrW⟩,
      calculateSecurityScore_of_flag _ (by simp [anyCriticalFlag, hf3])⟩

/-- Witness for C10 at `Object.prototype.isAdmin = …`. -/
theorem prototype_assignment_scores_100_witness :
    containsPrototypeAssignment (.assignExpr (.memberExpr (.memberExpr (.ident "Object")
      (.ident "prototype") false) (.ident "isAdmin") false) (.lit .nonString)) = true
    ∧ calculateSecurityScore (analyzeCodeSecurity constPrims
        (.assignExpr (.memberExpr (.memberExpr (.ident "Object") (.ident "prototype") false)
          (.ident "isAdmin") false) (.lit .nonString)) none) = 100 :=
  ⟨rfl, (prototype_assignment_scores_100 constPrims
    (.assignExpr (.memberExpr (.memberExpr (.ident "Object") (.ident "prototype") false)
      (.ident "isAdmin") false) (.lit .nonString)) none rfl).2.2⟩

/-! ### The validate wrapper -/

/-- **C1.** For every `ValidateCodeRequest`, the response field `valid`
is true if and only if the context-adjusted critical bucket is empty;
in particular, under a file context that downgrades every triggered rule
to `warning` (here: an `atob` call analysed in a bundled-dependency
context), `valid` is `true` even though `securityScore` — computed from
the pre-adjustment signals — is `100`. -/
theorem validate_valid_iff_adjusted_critical_empty :
    (∀ (parse : String → Node) (P : ExternalPrims) (request : ValidateCodeRequest),
      ((CodeSecurityService.validate parse P request).valid = true ↔
       (CodeSecurityService.validate parse P request).violations.critical = []))
    ∧ ((CodeSecurityService.validate
          (fun _ => .callExpr (.ident "atob") [.lit (.str "x")]) constPrims
          { code := "vendor.js", sourceMap := none, packageJson := ⟨[]⟩
            manifestConfig := none
            fileContext := some ⟨"vendor.js", false, false, true⟩ }).valid = true
       ∧ (CodeSecurityService.validate
          (fun _ => .callExpr (.ident "atob") [.lit (.str "x")]) constPrims
          { code := "vendor.js", sourceMap := none, packageJson := ⟨[]⟩
            manifestConfig := none
            fileContext := some ⟨"vendor.js", false, false, true⟩ }).securityScore = 100) := by
  constructor
  · intro parse P request
    unfold CodeSecurityService.validate
    dsimp only
    simp [List.length_eq_zero]
  · exact ⟨rfl, rfl⟩

/-- Witness for C1: clean code validates. -/
theorem validate_valid_iff_adjusted_critical_empty_witness :
    (CodeSecurityService.validate (fun _ => .tree []) constPrims
      { code := "a.js", sourceMap := none, packageJson := ⟨[]⟩
        manifestConfig := none, fileContext := none }).valid = true :=
  (validate_valid_iff_adjusted_critical_empty.1 (fun _ => .tree []) constPrims
    { code := "a.js", sourceMap := none, packageJson := ⟨[]⟩
      manifestConfig := none, fileContext := none }).mpr rfl

/-! ### Network-callee detection (fetch / XMLHttpRequest / WebSocket) -/

/-- C5, counterexample to the claim as stated: a `WebSocket` call whose
first argument is not a string literal sets `hasNetworkAPI` but does
**not** set `hasDynamicURLConstruction` — the WebSocket branch has no
non-literal fallback, unlike fetch/XMLHttpRequest. -/
theorem webSocket_dynamic_url_counterexample :
    (analyzeCodeSecurity constPrims (.callExpr (.ident "WebSocket") [.ident "u"])
      none).hasNetworkAPI = true
    ∧ (analyzeCodeSecurity constPrims (.callExpr (.ident "WebSocket") [.ident "u"])
      none).hasDynamicURLConstruction = false :=
  ⟨rfl, rfl⟩

/-- **C5 (amended).** For a call whose callee resolves to `fetch` or
`XMLHttpRequest`: `hasNetworkAPI` is set; a string-literal first
argument is captured into `urlStrings` for domain extraction; a
non-literal first argument sets `hasDynamicURLConstruction`, with no
violation emitted by the check alone.  For `WebSocket`: `hasNetworkAPI`
is set and a string-literal first argument is captured, but a
non-literal first argument leaves `hasDynamicURLConstruction` (and the
captured URLs) unchanged — the behavior is *not* uniform across the
three callees. -/
theorem network_callee_detection (calleeName : Option String) (args : List Node)
    (st : AnalyzerState) :
    ((calleeName = some "fetch" ∨ calleeName = some "XMLHttpRequest") →
      (fetchXhrCheck calleeName args st).signals.hasNetworkAPI = true
      ∧ (∀ url, args.head? = some (.lit (.str url)) →
          (fetchXhrCheck calleeName args st).urlStrings = st.urlStrings ++ [url]
          ∧ (fetchXhrCheck calleeName args st).signals.hasDynamicURLConstruction
              = st.signals.hasDynamicURLConstruction
          ∧ (fetchXhrCheck calleeName args st).signals.detectedViolations
              = st.signals.detectedViolations)
      ∧ ((∀ url, ¬ args.head? = some (.lit (.str url))) →
          (fetchXhrCheck calleeName args st).signals.hasDynamicURLConstruction = true
          ∧ (fetchXhrCheck calleeName args st).signals.detectedViolations
              = st.signals.detectedViolations))
    ∧ (calleeName = some "WebSocket" →
      (webSocketCheck calleeName args st).signals.hasNetworkAPI = true
      ∧ (∀ url, args.head? = some (.lit (.str url)) →
          (webSocketCheck calleeName args st).urlStrings = st.urlStrings ++ [url])
      ∧ ((∀ url, ¬ args.head? = some (.lit (.str url))) →
          (webSocketCheck calleeName args st).signals.hasDynamicURLConstruction
            = st.signals.hasDynamicURLConstruction
          ∧ (webSocketCheck calleeName args st).urlStrings = st.urlStrings)) := by
  constructor
  · rintro (rfl | rfl) <;>
      (unfold fetchXhrCheck
       rw [if_pos (by decide)]
       refine ⟨?_, fun url hurl => ?_, fun hnon => ?_⟩
       · split <;> rfl
       · rw [hurl]
         exact ⟨rfl, rfl, rfl⟩
       · split
         case h_1 url heq => exact absurd heq (hnon url)
         case h_2 => exact ⟨rfl, rfl⟩)
  · rintro rfl
    unfold webSocketCheck
    rw [if_pos rfl]
    refine ⟨?_, fun url hurl => ?_, fun hnon => ?_⟩
    · split <;> rfl
    · rw [hurl]
    · split
      case h_1 url heq => exact absurd heq (hnon url)
      case h_2 => exact ⟨rfl, rfl⟩

/-- Witness for the amended C5: `fetch(u)` with a non-literal argument
sets `hasDynamicURLConstruction`; `WebSocket(u)` leaves it at its
previous value. -/
theorem network_callee_detection_witness :
    (fetchXhrCheck (some "fetch") [Node.ident "u"] initialState).signals.hasDynamicURLConstruction = true
    ∧ (webSocketCheck (some "WebSocket") [Node.ident "u"] initialState).signals.hasDynamicURLConstruction
        = initialState.signals.hasDynamicURLConstruction := by
  constructor
  · exact (((network_callee_detection (some "fetch") [Node.ident "u"] initialState).1
      (Or.inl rfl)).2.2 (fun url h => by simp at h)).1
  · exact (((network_callee_detection (some "WebSocket") [Node.ident "u"] initialState).2
      rfl).2.2 (fun url h => by simp at h)).1

end Xrift
